import Mathlib

/-!
Verification development for the YooKassa → «Мой налог» receipt relay backend.

The definitions below are a shallow embedding of `Backend/app` (worker queue,
fiscal-provider client result handling, relay and chat fan-out, template
renderer).  Python `datetime` values are modelled as integer timestamps
(seconds); Python/JSON documents are modelled by the inductive `JValue`;
Python `float` is modelled by exact decimals (`Dec` below).
-/

namespace YooKassa

/-- An exact decimal `mant / 10 ^ exp`, the model of Python `float` here: the
backend only parses, passes and stores amounts — it never computes with them —
and every amount it handles has a finite decimal form on which CPython's
binary doubles and their repr agree with the exact value.  Values are kept
normalized (minimal `exp`), so structural equality is numeric equality. -/
structure Dec where
  mant : Int
  exp : Nat
  deriving DecidableEq

/-- Strip factors of ten shared by mantissa and exponent. -/
def Dec.norm (mant : Int) : Nat → Dec
  | 0 => ⟨mant, 0⟩
  | e + 1 => if mant % 10 == 0 then Dec.norm (mant / 10) e else ⟨mant, e + 1⟩

/-- Build the decimal `sign * mantNat * 10 ^ exp10`. -/
def Dec.ofParts (sign : Int) (mantNat : Nat) (exp10 : Int) : Dec :=
  if 0 ≤ exp10 then ⟨sign * mantNat * 10 ^ exp10.toNat, 0⟩
  else Dec.norm (sign * mantNat) (-exp10).toNat

/-- The rational denoted by a decimal (used only to state exactness). -/
def Dec.toRat (d : Dec) : Rat := (d.mant : Rat) / ((10 ^ d.exp : Nat) : Rat)

/-- JSON-like Python value (payloads, provider responses, template contexts).
A Python `dict` is modelled as an association list with distinct keys. -/
inductive JValue where
  | null : JValue
  | bool : Bool → JValue
  | int : Int → JValue
  | float : Dec → JValue
  | str : String → JValue
  | arr : List JValue → JValue
  | obj : List (String × JValue) → JValue

namespace JValue

/-- `d.get(key)` on a Python dict: first binding wins (keys are unique). -/
def lookup (fields : List (String × JValue)) (key : String) : Option JValue :=
  match fields.find? (fun kv => kv.1 = key) with
  | some kv => some kv.2
  | none => none

/-- `d.get(key, default)`. -/
def getD (fields : List (String × JValue)) (key : String) (default : JValue) : JValue :=
  match lookup fields key with
  | some v => v
  | none => default

/-- Python truthiness of a JSON-like value. -/
def truthy : JValue → Bool
  | .null => false
  | .bool b => b
  | .int n => n != 0
  | .float d => d.mant != 0
  | .str s => s ≠ ""
  | .arr xs => !xs.isEmpty
  | .obj fs => !fs.isEmpty

/-- Python `a or b` on values: `a` if truthy, else `b`. -/
def pyOr (a b : JValue) : JValue := if truthy a then a else b

/-- `payload.get(key, default)` where the payload is a JSON object
(webhook payload rows are JSON objects throughout the backend). -/
def dictGetD (payload : JValue) (key : String) (default : JValue) : JValue :=
  match payload with
  | .obj fields => getD fields key default
  | _ => default

end JValue

/-! ### Numeric rendering and parsing (CPython `float`, modelled exactly) -/

/-- Left-pad a digit string with zeros to width `k`, then trim trailing zeros
keeping at least one digit — the fractional part of CPython float repr. -/
def fracDigits (fp : Nat) (k : Nat) : String :=
  if k = 0 then "0"
  else
    let raw := toString fp
    let padded := String.mk (List.replicate (k - raw.length) '0') ++ raw
    let trimmed := String.mk (padded.data.reverse.dropWhile (· = '0')).reverse
    if trimmed = "" then "0" else trimmed

/-- Decimal rendering, as CPython `repr` prints the floats that occur in this
development: integral part, `.`, fractional digits (at least one). -/
def floatStr (d : Dec) : String :=
  (if d.mant < 0 then "-" else "")
    ++ toString (d.mant.natAbs / 10 ^ d.exp) ++ "."
    ++ fracDigits (d.mant.natAbs % 10 ^ d.exp) d.exp

def digitsVal (ds : List Char) : Nat :=
  ds.foldl (fun acc c => 10 * acc + (c.toNat - '0'.toNat)) 0

/-- ASCII whitespace as stripped by `float(str)`. -/
def isPyWs (c : Char) : Bool :=
  c = ' ' || c = '\t' || c = '\n' || c = '\r' || c = '\x0b' || c = '\x0c'

/-- Exponent suffix of a float literal: empty, or `e`/`E`, optional sign,
one or more digits consuming the rest of the input. -/
def parseExpPart : List Char → Option Int
  | [] => some 0
  | c :: r =>
    if c = 'e' ∨ c = 'E' then
      let (es, r1) : Int × List Char :=
        match r with
        | '+' :: t => (1, t)
        | '-' :: t => (-1, t)
        | t => (1, t)
      let ds := r1.takeWhile Char.isDigit
      let rest := r1.dropWhile Char.isDigit
      if ds.isEmpty ∨ ¬rest.isEmpty then none else some (es * (digitsVal ds : Int))
    else none

/-- CPython `float(str)` on finite decimal/scientific literals: strip
whitespace, optional sign, digits with optional fraction and exponent.
(Underscore separators and `inf`/`nan` literals are outside this model;
no value in this repository uses them.)  The error text mirrors CPython. -/
def parseFloat (s : String) : Except String Dec :=
  let err : Except String Dec :=
    .error ("could not convert string to float: \x27" ++ s ++ "\x27")
  let cs := ((s.data.dropWhile isPyWs).reverse.dropWhile isPyWs).reverse
  let (sign, cs1) : Int × List Char :=
    match cs with
    | '+' :: t => (1, t)
    | '-' :: t => (-1, t)
    | t => (1, t)
  let ip := cs1.takeWhile Char.isDigit
  let r1 := cs1.dropWhile Char.isDigit
  let (fp, r2) : List Char × List Char :=
    match r1 with
    | '.' :: t => (t.takeWhile Char.isDigit, t.dropWhile Char.isDigit)
    | t => ([], t)
  if ip.isEmpty ∧ fp.isEmpty then err
  else
    match parseExpPart r2 with
    | none => err
    | some e =>
        .ok (Dec.ofParts sign (digitsVal (ip ++ fp)) (e - (fp.length : Int)))

/-- CPython `float(x)` on a JSON-like value (`float` of bool/int/float/str;
anything else raises `TypeError`). -/
def pyFloat : JValue → Except String Dec
  | .int n => .ok ⟨n, 0⟩
  | .float d => .ok d
  | .bool b => .ok (if b then ⟨1, 0⟩ else ⟨0, 0⟩)
  | .str s => parseFloat s
  | .null => .error "float() argument must be a string or a real number, not \x27NoneType\x27"
  | .arr _ => .error "float() argument must be a string or a real number, not \x27list\x27"
  | .obj _ => .error "float() argument must be a string or a real number, not \x27dict\x27"

/-! ### String rendering of values (`str`, `json.dumps`) -/

def hexDigit (n : Nat) : Char :=
  if n < 10 then Char.ofNat ('0'.toNat + n) else Char.ofNat ('a'.toNat + (n - 10))

def hex4 (n : Nat) : String :=
  String.mk [hexDigit (n / 4096 % 16), hexDigit (n / 256 % 16),
             hexDigit (n / 16 % 16), hexDigit (n % 16)]

/-- JSON string escaping as `json.dumps(..., ensure_ascii=False)` performs it. -/
def jsonEscapeChar (c : Char) : String :=
  if c = '"' then "\\\""
  else if c = '\\' then "\\\\"
  else if c = '\n' then "\\n"
  else if c = '\t' then "\\t"
  else if c = '\r' then "\\r"
  else if c.toNat < 0x20 then "\\u" ++ hex4 c.toNat
  else String.mk [c]

def jsonQuote (s : String) : String :=
  "\"" ++ String.join (s.data.map jsonEscapeChar) ++ "\""

/-- `json.dumps(value, ensure_ascii=False)` with the default item/key
separators `", "` and `": "`. -/
def dumps : JValue → String
  | .null => "null"
  | .bool true => "true"
  | .bool false => "false"
  | .int n => toString n
  | .float q => floatStr q
  | .str s => jsonQuote s
  | .arr xs => "[" ++ String.intercalate ", " (xs.attach.map fun x => dumps x.1) ++ "]"
  | .obj fs =>
      "\x7b" ++ String.intercalate ", "
        (fs.attach.map fun kv => jsonQuote kv.1.1 ++ ": " ++ dumps kv.1.2) ++ "\x7d"
decreasing_by
  · have := List.sizeOf_lt_of_mem x.2
    simp only [JValue.arr.sizeOf_spec]
    omega
  · have := List.sizeOf_lt_of_mem kv.2
    have h2 : sizeOf kv.1.2 < sizeOf kv.1 := by
      obtain ⟨a, b⟩ := kv.1
      simp only [Prod.mk.sizeOf_spec]
      omega
    simp only [JValue.obj.sizeOf_spec]
    omega

/-- Python `repr` of a structured value (used by `str()` on dict/list);
string escaping inside repr is elided — no claim depends on it. -/
def pyRepr : JValue → String
  | .null => "None"
  | .bool true => "True"
  | .bool false => "False"
  | .int n => toString n
  | .float q => floatStr q
  | .str s => "\x27" ++ s ++ "\x27"
  | .arr xs => "[" ++ String.intercalate ", " (xs.attach.map fun x => pyRepr x.1) ++ "]"
  | .obj fs =>
      "\x7b" ++ String.intercalate ", "
        (fs.attach.map fun kv => "\x27" ++ kv.1.1 ++ "\x27: " ++ pyRepr kv.1.2) ++ "\x7d"
decreasing_by
  · have := List.sizeOf_lt_of_mem x.2
    simp only [JValue.arr.sizeOf_spec]
    omega
  · have := List.sizeOf_lt_of_mem kv.2
    have h2 : sizeOf kv.1.2 < sizeOf kv.1 := by
      obtain ⟨a, b⟩ := kv.1
      simp only [Prod.mk.sizeOf_spec]
      omega
    simp only [JValue.obj.sizeOf_spec]
    omega

/-- Python `str(value)` on a JSON-like value. -/
def pyStr : JValue → String
  | .null => "None"
  | .bool true => "True"
  | .bool false => "False"
  | .int n => toString n
  | .float q => floatStr q
  | .str s => s
  | .arr xs => pyRepr (.arr xs)
  | .obj fs => pyRepr (.obj fs)

/-! ### Data model (`app/models.py`), restricted to the fields the services
read or write.  `datetime` columns are integer timestamps; autoincrement ids
are naturals. -/

inductive RelayMode where
  | fire_and_forget
  | retry_until_200
  deriving DecidableEq

inductive MyTaxProvider where
  | official_api
  | unofficial_api
  deriving DecidableEq

inductive TaskType where
  | create_receipt
  | cancel_receipt
  deriving DecidableEq

inductive TaskStatus where
  | pending
  | processing
  | success
  | failed
  | waiting_auth
  deriving DecidableEq

inductive EventStatus where
  | received
  | processed
  | failed
  deriving DecidableEq

inductive ReceiptStatus where
  | created
  | canceled
  deriving DecidableEq

structure MyTaxProfile where
  id : Nat
  provider : MyTaxProvider
  is_authenticated : Bool
  last_error : String
  deriving DecidableEq

structure Store where
  id : Nat
  description_template : String
  amount_path : String
  payment_id_path : String
  customer_name_path : String
  relay_mode : RelayMode
  relay_retry_limit : Int
  include_receipt_url_in_relay : Bool
  mytax_profile : Option MyTaxProfile
  deriving DecidableEq

structure RelayTarget where
  id : Nat
  store_id : Nat
  url : String
  method : String
  payload_template : String
  is_active : Bool
  deriving DecidableEq

structure TelegramChannel where
  id : Nat
  store_id : Nat
  bot_token : String
  chat_id : String
  topic_id : Option Int
  events_json : List String
  include_receipt_url : Bool
  is_active : Bool
  deriving DecidableEq

structure PaymentEvent where
  id : Nat
  store_id : Nat
  payment_id : String
  payload : JValue
  status : EventStatus
  relay_status : String
  error_message : String
  processed_at : Option Int

structure ReceiptTask where
  id : Nat
  store_id : Nat
  event_id : Nat
  payment_id : String
  task_type : TaskType
  payload : JValue
  status : TaskStatus
  attempts : Nat
  max_attempts : Nat
  next_retry_at : Int
  error_message : String
  created_at : Int

structure Receipt where
  id : Nat
  store_id : Nat
  task_id : Nat
  payment_id : String
  receipt_uuid : String
  receipt_url : String
  amount : Dec
  currency : String
  description : String
  status : ReceiptStatus
  raw_response : JValue
  created_at : Int
  canceled_at : Option Int

/-- `AppLog` audit rows (the structured `context` dict is elided — a pure
side channel no claim touches). -/
structure AppLog where
  store_id : Option Nat
  level : String
  event : String
  message : String

/-! ### Template renderer (`app/services/template.py`) -/

/-- Python `path.split(\x27.\x27)`: split on every dot, keeping empty parts
(`"" ↦ [""]`, `"a..b" ↦ ["a", "", "b"]`). -/
def splitDot : List Char → List String
  | [] => [""]
  | c :: rest =>
    match splitDot rest with
    | [] => []
    | s :: ss =>
      if c = '.' then "" :: s :: ss else String.mk (c :: s.data) :: ss

/-- Walk a dotted path through nested dicts; `none` at the first step whose
current value is not a dict or lacks the key — the shared lookup loop of
`get_nested` and `render_template.replace_var`. -/
def resolvePath : JValue → List String → Option JValue
  | v, [] => some v
  | v, part :: rest =>
    match v with
    | .obj fields =>
      match JValue.lookup fields part with
      | some v2 => resolvePath v2 rest
      | none => none
    | _ => none

/-- `get_nested(payload, path, default)`. -/
def get_nested (payload : JValue) (path : String) (default : JValue) : JValue :=
  match resolvePath payload (splitDot path.data) with
  | some v => v
  | none => default

/-- `build_context(payload, store)`: the rendering context as an association
list (a Python dict with these five keys). -/
def build_context (payload : JValue) (store : Store) : List (String × JValue) :=
  [("payment_id", get_nested payload store.payment_id_path (.str "")),
   ("amount", get_nested payload store.amount_path (.int 0)),
   ("customer_name", get_nested payload store.customer_name_path (.str "")),
   ("event", JValue.dictGetD payload "event" (.str "")),
   ("payload", payload)]

/-- The character class `[a-zA-Z0-9_.]` of `VARIABLE_PATTERN`. -/
def isNameChar (c : Char) : Bool := c.isAlphanum || c = '_' || c = '.'

/-- ASCII `\s` (the payload paths and templates in this backend are ASCII). -/
def isSpaceChar (c : Char) : Bool := isPyWs c

/-- Attempt to match `VARIABLE_PATTERN` = `\x7b\x7b\s*([a-zA-Z0-9_.]+)\s*\x7d\x7d`
anchored at the head of `cs`; on success return the captured name and the
remainder of the input. -/
def tryMatch (cs : List Char) : Option (String × List Char) :=
  match cs with
  | c1 :: c2 :: rest =>
    if c1 = '{' ∧ c2 = '{' then
      let afterWs := rest.dropWhile isSpaceChar
      let name := afterWs.takeWhile isNameChar
      let afterName := afterWs.dropWhile isNameChar
      match name, afterName.dropWhile isSpaceChar with
      | [], _ => none
      | _ :: _, '}' :: '}' :: rem => some (String.mk name, rem)
      | _ :: _, _ => none
    else none
  | _ => none

theorem tryMatch_length {cs : List Char} {key : String} {rem : List Char}
    (h : tryMatch cs = some (key, rem)) : rem.length < cs.length := by
  match cs with
  | [] => simp [tryMatch] at h
  | [c] => simp [tryMatch] at h
  | c1 :: c2 :: rest =>
    have h1 := (rest.dropWhile_suffix isSpaceChar).length_le
    have h2 := ((rest.dropWhile isSpaceChar).dropWhile_suffix isNameChar).length_le
    have h3 :=
      (((rest.dropWhile isSpaceChar).dropWhile isNameChar).dropWhile_suffix
        isSpaceChar).length_le
    simp only [tryMatch] at h
    split at h
    · split at h
      · exact absurd h (by simp)
      · rename_i heq
        simp only [Option.some.injEq, Prod.mk.injEq] at h
        obtain ⟨-, hr⟩ := h
        subst hr
        rw [heq] at h3
        simp only [List.length_cons] at h3 ⊢
        omega
      · exact absurd h (by simp)
    · exact absurd h (by simp)

/-- `replace_var`: resolve the captured dotted name against the context;
unresolved paths become the empty string, dict/list values are JSON-dumped,
scalars are `str()`-ed. -/
def substToken (context : JValue) (key : String) : String :=
  match resolvePath context (splitDot key.data) with
  | none => ""
  | some v =>
    match v with
    | .obj fs => dumps (.obj fs)
    | .arr xs => dumps (.arr xs)
    | _ => pyStr v

/-- `VARIABLE_PATTERN.sub(replace_var, source)`: scan left to right, replace
each leftmost non-overlapping match, copy every other character.  The fuel
argument makes the recursion structural; `renderAux` supplies `cs.length`,
which always suffices because a match consumes at least one character
(`tryMatch_length`). -/
def renderFuel (context : JValue) : Nat → List Char → List Char
  | _, [] => []
  | 0, c :: cs => c :: cs
  | fuel + 1, c :: cs =>
    match tryMatch (c :: cs) with
    | some (key, rem) => (substToken context key).data ++ renderFuel context fuel rem
    | none => c :: renderFuel context fuel cs

def renderAux (context : JValue) (cs : List Char) : List Char :=
  renderFuel context cs.length cs

/-- `render_template(source, context)`. -/
def render_template (source : String) (context : JValue) : String :=
  String.mk (renderAux context source.data)

/-! ### Fiscal provider client (`app/services/mytax.py`), pure parts -/

structure MyTaxReceiptResult where
  receipt_uuid : String
  receipt_url : String
  raw : JValue

/-- An HTTP response as `MyTaxClient._request` inspects it: status code, body
text, `Content-Type` header, and the result of `response.json()` when the body
parses as JSON (`none` when parsing would raise `ValueError`). -/
structure HttpResponse where
  status : Nat
  content : String
  content_type : String
  parsed_json : Option JValue

inductive RequestOutcome where
  | authError (message : String)
  | apiError (status : Nat) (response_text : String) (payload : Option (List (String × JValue)))
  | ok (value : JValue)
  | jsonDecodeError

def strToLower (s : String) : String := String.mk (s.data.map Char.toLower)

def strContains (hay needle : String) : Bool :=
  hay.data.tails.any (fun t => needle.data.isPrefixOf t)

def pyStrip (s : String) : String :=
  String.mk (((s.data.dropWhile isPyWs).reverse.dropWhile isPyWs).reverse)

/-- The status dispatch of `MyTaxClient._request` after the HTTP call
returned: 401/403 become the authentication error *first*, any other
status ≥ 400 becomes `MyTaxApiError` with the response body and a
best-effort parsed payload, and success bodies are returned as JSON, as a
wrapped `raw_text` document, or as the empty document. -/
def requestDispatch (r : HttpResponse) : RequestOutcome :=
  if r.status = 401 ∨ r.status = 403 then
    .authError "Ошибка авторизации в Мой Налог, требуется повторный вход"
  else if 400 ≤ r.status then
    .apiError r.status r.content
      (match r.parsed_json with
       | some (.obj fs) => some fs
       | _ => none)
  else if r.content ≠ "" then
    if strContains (strToLower r.content_type) "application/json" then
      match r.parsed_json with
      | some v => .ok v
      | none => .jsonDecodeError
    else
      let text := pyStrip r.content
      if text ≠ "" then
        match r.parsed_json with
        | some v => .ok v
        | none => .ok (.obj [("raw_text", .str text)])
      else .ok (.obj [])
  else .ok (.obj [])

def unofficial_base_url : String := "https://lknpd.nalog.ru"

/-- `raw.get(key)` on the provider response document. -/
def rawGet (raw : JValue) (key : String) : JValue := JValue.dictGetD raw key .null

/-- `str(raw.get(\x27approvedReceiptUuid\x27) or raw.get(\x27receiptUuid\x27)
or raw.get(\x27id\x27) or payment_id)` in `UnofficialMyTaxClient.create_receipt`. -/
def unofficialReceiptUuid (raw : JValue) (payment_id : String) : String :=
  pyStr (JValue.pyOr (rawGet raw "approvedReceiptUuid")
    (JValue.pyOr (rawGet raw "receiptUuid")
      (JValue.pyOr (rawGet raw "id") (.str payment_id))))

/-- `str(raw.get(\x27receiptUrl\x27) or f\x27...\x27)`. -/
def unofficialReceiptUrl (raw : JValue) (receipt_uuid : String) : String :=
  pyStr (JValue.pyOr (rawGet raw "receiptUrl")
    (.str (unofficial_base_url ++ "/web/receipts/" ++ receipt_uuid)))

def unofficialCreateResult (raw : JValue) (payment_id : String) : MyTaxReceiptResult :=
  let receipt_uuid := unofficialReceiptUuid raw payment_id
  { receipt_uuid, receipt_url := unofficialReceiptUrl raw receipt_uuid, raw }

/-- `OfficialMyTaxClient.create_receipt` result assembly. -/
def officialCreateResult (raw : JValue) (payment_id : String) : MyTaxReceiptResult :=
  { receipt_uuid := pyStr (JValue.pyOr (rawGet raw "receipt_uuid") (.str payment_id))
    receipt_url := pyStr (JValue.pyOr (rawGet raw "receipt_url") (.str ""))
    raw }

/-! ### Chat fan-out (`app/services/telegram.py`)

The HTTP post to the bot endpoint is external I/O; an oracle `fail k` gives
the outcome of the `k`-th post of the call (`none` = delivered, `some e` = the
post raised an exception whose text is `e`).  The source has no try/except
around the post, so a raised exception aborts the loop and propagates. -/

structure ChatMessage where
  bot_token : String
  chat_id : String
  text : String
  message_thread_id : Option Int
  deriving DecidableEq

/-- `if channel.events_json and event_name not in channel.events_json: continue`. -/
def channelAllows (event_name : String) (c : TelegramChannel) : Bool :=
  !(!c.events_json.isEmpty && !c.events_json.contains event_name)

/-- Message text with the receipt-URL suffix line when configured and non-empty. -/
def chatFullText (message receipt_url : String) (c : TelegramChannel) : String :=
  if c.include_receipt_url && receipt_url ≠ "" then
    message ++ "\nЧек: " ++ receipt_url
  else message

/-- The `sendMessage` payload; `message_thread_id` is present when
`channel.topic_id` is truthy (non-null and non-zero). -/
def mkChatMessage (c : TelegramChannel) (text : String) : ChatMessage :=
  { bot_token := c.bot_token, chat_id := c.chat_id, text,
    message_thread_id :=
      match c.topic_id with
      | some t => if t ≠ 0 then some t else none
      | none => none }

def notifyLoop (fail : Nat → Option String) (event_name message receipt_url : String) :
    List TelegramChannel → Nat → List ChatMessage × Option String
  | [], _ => ([], none)
  | c :: cs, k =>
    if channelAllows event_name c then
      match fail k with
      | some e => ([], some e)
      | none =>
        let rest := notifyLoop fail event_name message receipt_url cs (k + 1)
        (mkChatMessage c (chatFullText message receipt_url c) :: rest.1, rest.2)
    else notifyLoop fail event_name message receipt_url cs k

/-- `notify_store`: delivered messages in order, and the text of the
propagating exception when a post raised. -/
def notify_store (fail : Nat → Option String) (channels : List TelegramChannel)
    (store_id : Nat) (event_name message receipt_url : String) :
    List ChatMessage × Option String :=
  notifyLoop fail event_name message receipt_url
    (channels.filter (fun c => c.store_id == store_id && c.is_active)) 0

/-! ### Relay fan-out (`app/services/relay.py`)

Delivery outcomes come from an oracle `outcomes targetIdx attemptIdx`.  The
outbound body construction (payload copy, optional `generated_receipt_url`
key, optional payload-template rendering re-parsed as JSON) does not affect
the aggregate status or the attempt counts and is elided here; the renderer
it uses is `render_template` above. -/

inductive AttemptResult where
  | status (code : Nat)
  | exn
  deriving DecidableEq

/-- `range(max(1, store.relay_retry_limit))`: the number of iterations of the
retry loop. -/
def retryCount (relay_retry_limit : Int) : Nat := (max 1 relay_retry_limit).toNat

/-- The `retry_until_200` inner loop from attempt index `i` with the given
iteration budget: `(reached 200, attempts performed)`. -/
def retryLoop (outcome : Nat → AttemptResult) (i : Nat) : Nat → Bool × Nat
  | 0 => (false, 0)
  | fuel + 1 =>
    match outcome i with
    | .status 200 => (true, 1)
    | _ =>
      let rest := retryLoop outcome (i + 1) fuel
      (rest.1, rest.2 + 1)

def relayFold (outcomes : Nat → Nat → AttemptResult) (store : Store) :
    List RelayTarget → Nat → String → String
  | [], _, status => status
  | _t :: ts, idx, status =>
    let status2 :=
      match store.relay_mode with
      | .fire_and_forget =>
          if outcomes idx 0 = .exn then "partial_error" else status
      | .retry_until_200 =>
          if (retryLoop (outcomes idx) 0 (retryCount store.relay_retry_limit)).1 then status
          else "error"
    relayFold outcomes store ts (idx + 1) status2

/-- `relay_notification`: aggregate delivery status across the store\x27s
active relay targets. -/
def relay_notification (outcomes : Nat → Nat → AttemptResult)
    (targets : List RelayTarget) (store : Store) : String :=
  let active := targets.filter (fun t => t.store_id == store.id && t.is_active)
  if active.isEmpty then "no_targets"
  else relayFold outcomes store active 0 "success"

/-! ### Worker (`app/services/worker.py`)

One call of `process_one_task` over a database snapshot.  External I/O — the
fiscal-provider call, relay posts, chat posts — is supplied by an `Env`
oracle; `MyTaxAuthError` and generic exceptions raised by the provider client
are the two `Except` error shapes.  The returned trace records, in program
order, the durable `processing` mark and every outbound call; `uncaught`
marks a tick whose exception escaped `process_one_task` (the session then
closes without commit, discarding the row mutations — the worker loop catches
the exception). -/

inductive WErr where
  | auth (message : String)
  | generic (message : String)

inductive Ev where
  | flushTask (t : ReceiptTask)
  | providerCreate (description : String) (amount : Dec) (payment_id : String)
  | providerCancel (receipt_uuid : JValue)
  | relayDone (status : String)
  | notifyCall (store_id : Nat) (event_name : String) (message : String)
  | chatPost (msg : ChatMessage)
  | commit

structure DB where
  stores : List Store
  events : List PaymentEvent
  tasks : List ReceiptTask
  receipts : List Receipt
  relay_targets : List RelayTarget
  channels : List TelegramChannel
  logs : List AppLog
  receipt_seq : Nat

structure Env where
  now : Int
  createResult : Except WErr MyTaxReceiptResult
  cancelResult : Except WErr JValue
  relayOutcome : Nat → Nat → AttemptResult
  chatFail : Nat → Option String

/-- Task eligibility: `status IN (pending, waiting_auth) AND next_retry_at <= now`. -/
def eligibleB (now : Int) (t : ReceiptTask) : Bool :=
  (t.status == TaskStatus.pending || t.status == TaskStatus.waiting_auth)
    && decide (t.next_retry_at ≤ now)

/-- `ORDER BY created_at ASC LIMIT 1` over the eligible tasks; among equal
creation times the earlier row wins (the SQL order is otherwise unspecified;
the claims below only use the `created_at` bound). -/
def selectTask (now : Int) : List ReceiptTask → Option ReceiptTask
  | [] => none
  | t :: ts =>
    match selectTask now ts with
    | none => if eligibleB now t then some t else none
    | some b =>
      if eligibleB now t && decide (t.created_at ≤ b.created_at) then some t else some b

def findStore (stores : List Store) (id : Nat) : Option Store :=
  stores.find? (fun s => s.id == id)

def findEvent (events : List PaymentEvent) (id : Nat) : Option PaymentEvent :=
  events.find? (fun e => e.id == id)

/-- Write a mutated row back: replace the rows carrying its primary key. -/
def updBy {α : Type} (key : α → Nat) (x : α) (l : List α) : List α :=
  l.map (fun u => if key u == key x then x else u)

def updTasks (t : ReceiptTask) (l : List ReceiptTask) : List ReceiptTask :=
  updBy (fun u => u.id) t l

def updEvents (e : PaymentEvent) (l : List PaymentEvent) : List PaymentEvent :=
  updBy (fun u => u.id) e l

def updStores (s : Store) (l : List Store) : List Store :=
  updBy (fun u => u.id) s l

def updReceipts (r : Receipt) (l : List Receipt) : List Receipt :=
  updBy (fun u => u.id) r l

/-- `SELECT ... WHERE store_id = _ AND payment_id = _ ORDER BY created_at DESC
LIMIT 1` (no status filter in the source); among equal creation times the
earlier row wins. -/
def mostRecentAux : List Receipt → Option Receipt
  | [] => none
  | r :: rs =>
    match mostRecentAux rs with
    | none => some r
    | some b => if decide (b.created_at ≤ r.created_at) then some r else some b

def mostRecentReceipt (receipts : List Receipt) (store_id : Nat) (payment_id : String) :
    Option Receipt :=
  mostRecentAux (receipts.filter (fun r => r.store_id == store_id && r.payment_id == payment_id))

/-- The per-tick session: the rows loaded and mutated in this pass, the
receipts added, and the ordered trace of externally visible steps. -/
structure Sess where
  task : ReceiptTask
  store : Store
  event : PaymentEvent
  receipts : List Receipt
  new_receipts : List Receipt
  receipt_seq : Nat
  logs : List AppLog
  trace : List Ev

/-- `_create_worker_log`: append an `AppLog` row to the session. -/
def addLog (s : Sess) (level event message : String) (store_id : Option Nat) : Sess :=
  { s with logs := s.logs ++ [{ store_id, level, event, message }] }

/-- The rendered description of the `create_receipt` branch
(`render_template(store.description_template, context)`). -/
def createDescription (s : Sess) : String :=
  render_template s.store.description_template (.obj (build_context s.event.payload s.store))

/-- `float(context.get(\x27amount\x27, 0) or 0)` — the amount coercion of the
`create_receipt` branch (`ValueError`/`TypeError` text on the error side). -/
def createAmount (s : Sess) : Except String Dec :=
  pyFloat (JValue.pyOr (JValue.getD (build_context s.event.payload s.store) "amount" (.int 0))
    (.int 0))

/-- `task.payload.get(\x27receipt_uuid\x27, \x27\x27)`. -/
def cancelUuid (s : Sess) : JValue :=
  JValue.dictGetD s.task.payload "receipt_uuid" (.str "")

/-- The `create_receipt` branch of the dispatch `try:` block. -/
def runCreate (env : Env) (db : DB) (s : Sess) : Sess × Except WErr Unit :=
  match createAmount s with
  | .error m => (s, .error (.generic m))
  | .ok amount =>
    let description := createDescription s
    let s1 := { s with
      trace := s.trace ++ [Ev.providerCreate description amount s.task.payment_id] }
    match env.createResult with
    | .error e => (s1, .error e)
    | .ok res =>
      let receipt : Receipt :=
        { id := s.receipt_seq, store_id := s.store.id, task_id := s.task.id,
          payment_id := s.task.payment_id, receipt_uuid := res.receipt_uuid,
          receipt_url := res.receipt_url, amount, currency := "RUB",
          description, status := .created, raw_response := res.raw,
          created_at := env.now, canceled_at := none }
      let relay_status := relay_notification env.relayOutcome db.relay_targets s.store
      let sent := notify_store env.chatFail db.channels s.store.id "receipt_created"
        ("Receipt created for payment " ++ s.task.payment_id) res.receipt_url
      let s2 := { s1 with
        new_receipts := s1.new_receipts ++ [receipt]
        receipt_seq := s1.receipt_seq + 1
        event := { s1.event with relay_status := relay_status }
        trace := s1.trace ++ [Ev.relayDone relay_status]
          ++ Ev.notifyCall s.store.id "receipt_created"
               ("Receipt created for payment " ++ s.task.payment_id)
             :: sent.1.map Ev.chatPost }
      match sent.2 with
      | some m => (s2, .error (.generic m))
      | none => (s2, .ok ())

/-- The `cancel_receipt` branch of the dispatch `try:` block. -/
def runCancel (env : Env) (db : DB) (s : Sess) : Sess × Except WErr Unit :=
  if JValue.truthy (cancelUuid s) = false then
    (s, .error (.generic "receipt_uuid is required for cancel task"))
  else
    let s1 := { s with trace := s.trace ++ [Ev.providerCancel (cancelUuid s)] }
    match env.cancelResult with
    | .error e => (s1, .error e)
    | .ok _ =>
      let s2 :=
        match mostRecentReceipt s.receipts s.store.id s.task.payment_id with
        | some r =>
          { s1 with receipts :=
              updReceipts { r with status := .canceled, canceled_at := some env.now } s1.receipts }
        | none => s1
      let sent := notify_store env.chatFail db.channels s.store.id "receipt_canceled"
        ("Receipt canceled for payment " ++ s.task.payment_id) ""
      let s3 := { s2 with
        trace := s2.trace
          ++ Ev.notifyCall s.store.id "receipt_canceled"
               ("Receipt canceled for payment " ++ s.task.payment_id)
             :: sent.1.map Ev.chatPost }
      match sent.2 with
      | some m => (s3, .error (.generic m))
      | none => (s3, .ok ())

def dispatchTask (env : Env) (db : DB) (s : Sess) : Sess × Except WErr Unit :=
  match s.task.task_type with
  | .create_receipt => runCreate env db s
  | .cancel_receipt => runCancel env db s

/-- `min(300, attempts * 20)` — the linear backoff in seconds. -/
def backoff (attempts : Nat) : Nat := min 300 (attempts * 20)

/-- Lines 162–173: success finalization. -/
def successFinalize (env : Env) (s : Sess) : Sess :=
  let s2 := { s with
    task := { s.task with status := .success, error_message := "" },
    event := { s.event with status := .processed, processed_at := some env.now },
    store := { s.store with
      mytax_profile := s.store.mytax_profile.map (fun p => { p with last_error := "" }) } }
  addLog s2 "info" "worker_task_success"
    ("Task #" ++ toString s.task.id ++ " processed successfully") (some s.task.store_id)

/-- Lines 176–192: the `MyTaxAuthError` handler (the chat notification that
follows it is emitted by `process_one_task`). -/
def authFinalize (env : Env) (m : String) (s : Sess) : Sess :=
  let s2 := { s with
    task := { s.task with
                status := .waiting_auth
                error_message := m
                next_retry_at := env.now + 900 },
    event := { s.event with status := .failed, error_message := m },
    store := { s.store with
      mytax_profile := s.store.mytax_profile.map
        (fun p => { p with is_authenticated := false, last_error := m }) } }
  addLog s2 "warning" "worker_auth_required"
    ("Task #" ++ toString s.task.id ++ " requires MyTax re-authentication")
    (some s.task.store_id)

/-- Lines 200–226: the generic `Exception` handler. -/
def genericFinalize (env : Env) (m : String) (s : Sess) : Sess :=
  let t := s.task
  let task2 :=
    if t.max_attempts ≤ t.attempts then
      { t with status := .failed, error_message := m }
    else
      { t with
          status := .pending
          error_message := m
          next_retry_at := env.now + (backoff t.attempts : Int) }
  let s2 := { s with
    task := task2,
    event := { s.event with status := .failed, error_message := m } }
  addLog s2 (if task2.status = .failed then "error" else "warning")
    (if task2.status = .pending then "worker_task_retry" else "worker_task_failed")
    ("Task #" ++ toString t.id ++ " failed: " ++ m) (some t.store_id)

/-- `await db.commit()`: write the session rows back to the database. -/
def commitDB (db : DB) (s : Sess) : DB :=
  { db with
    tasks := updTasks s.task db.tasks,
    events := updEvents s.event db.events,
    stores := updStores s.store db.stores,
    receipts := s.receipts ++ s.new_receipts,
    logs := db.logs ++ s.logs,
    receipt_seq := s.receipt_seq }

structure TickResult where
  db : DB
  trace : List Ev
  uncaught : Bool

/-- Lines 84–96: store/event/profile unresolved — direct terminal failure. -/
def integrityFail (db : DB) (task1 : ReceiptTask) (trace0 : List Ev) : TickResult :=
  let task2 := { task1 with
                   status := .failed
                   error_message := "Store/event/profile not found" }
  let log : AppLog :=
    { store_id := some task1.store_id
      level := "error"
      event := "worker_task_failed"
      message := "Task #" ++ toString task1.id ++ " failed: store/event/profile not found" }
  ⟨{ db with tasks := updTasks task2 db.tasks, logs := db.logs ++ [log] },
    trace0 ++ [Ev.commit], false⟩

/-- Lines 75–76: `task.status = PROCESSING; task.attempts += 1` — the durable
`processing` mark flushed before any external I/O. -/
def markProcessing (t : ReceiptTask) : ReceiptTask :=
  { t with status := .processing, attempts := t.attempts + 1 }

/-- The per-tick session as loaded right after the flush of the
`processing` mark. -/
def mkSess0 (db : DB) (task1 : ReceiptTask) (store : Store) (event : PaymentEvent) : Sess :=
  { task := task1, store, event, receipts := db.receipts,
    new_receipts := [], receipt_seq := db.receipt_seq,
    logs := [], trace := [Ev.flushTask task1] }

/-- `process_one_task()` — one worker tick over the database snapshot `db`. -/
def process_one_task (env : Env) (db : DB) : TickResult :=
  match selectTask env.now db.tasks with
  | none => ⟨db, [], false⟩
  | some task =>
    let task1 := markProcessing task
    let trace0 : List Ev := [Ev.flushTask task1]
    match findStore db.stores task.store_id, findEvent db.events task.event_id with
    | some store, some event =>
      match store.mytax_profile with
      | some _profile =>
        let out := dispatchTask env db (mkSess0 db task1 store event)
        match out.2 with
        | .ok _ =>
          let s2 := successFinalize env out.1
          ⟨commitDB db s2, s2.trace ++ [Ev.commit], false⟩
        | .error (.auth m) =>
          let s2 := authFinalize env m out.1
          let message := "MyTax re-authentication required: " ++ m
          let sent := notify_store env.chatFail db.channels task.store_id
            "mytax_auth_required" message ""
          let tr := s2.trace ++
            Ev.notifyCall task.store_id "mytax_auth_required" message :: sent.1.map Ev.chatPost
          let s3 := { s2 with trace := tr }
          match sent.2 with
          | some _ => ⟨db, s3.trace, true⟩
          | none => ⟨commitDB db s3, s3.trace ++ [Ev.commit], false⟩
        | .error (.generic m) =>
          let s2 := genericFinalize env m out.1
          ⟨commitDB db s2, s2.trace ++ [Ev.commit], false⟩
      | none => integrityFail db task1 trace0
    | some _, none => integrityFail db task1 trace0
    | none, _ => integrityFail db task1 trace0

/-! ## Lemmas about the embedding -/

theorem mem_updBy_self {α : Type} (key : α → Nat) {x y : α} {l : List α}
    (hy : y ∈ l) (hk : key y = key x) : x ∈ updBy key x l := by
  induction l with
  | nil => cases hy
  | cons a as ih =>
    rcases List.mem_cons.mp hy with h | h
    · subst h
      simp [updBy, hk]
    · simp only [updBy, List.map_cons, List.mem_cons]
      right
      exact ih h

theorem mem_updBy_other {α : Type} (key : α → Nat) {x y : α} {l : List α}
    (hy : y ∈ l) (hk : key y ≠ key x) : y ∈ updBy key x l := by
  induction l with
  | nil => cases hy
  | cons a as ih =>
    rcases List.mem_cons.mp hy with h | h
    · subst h
      simp only [updBy, List.map_cons, List.mem_cons]
      left
      rw [if_neg (by simpa using hk)]
    · simp only [updBy, List.map_cons, List.mem_cons]
      right
      exact ih h

theorem findStore_mem {stores : List Store} {id : Nat} {s : Store}
    (h : findStore stores id = some s) : s ∈ stores ∧ s.id = id := by
  refine ⟨List.mem_of_find?_eq_some h, ?_⟩
  have := List.find?_some h
  simpa using this

theorem findEvent_mem {events : List PaymentEvent} {id : Nat} {e : PaymentEvent}
    (h : findEvent events id = some e) : e ∈ events ∧ e.id = id := by
  refine ⟨List.mem_of_find?_eq_some h, ?_⟩
  have := List.find?_some h
  simpa using this

/-- A tick that selects nothing found no eligible task. -/
theorem selectTask_none {now : Int} {ts : List ReceiptTask}
    (h : selectTask now ts = none) : ∀ u ∈ ts, eligibleB now u = false := by
  induction ts with
  | nil => intro u hu; cases hu
  | cons a as ih =>
    simp only [selectTask] at h
    rcases h2 : selectTask now as with _ | b <;> simp only [h2] at h
    · split at h
      · exact absurd h (by simp)
      · rename_i hcond
        intro u hu
        rcases List.mem_cons.mp hu with rfl | hu2
        · simpa using hcond
        · exact ih h2 u hu2
    · split at h <;> exact absurd h (by simp)

/-- A selected task is eligible. -/
theorem selectTask_eligible {now : Int} {ts : List ReceiptTask} {t : ReceiptTask}
    (h : selectTask now ts = some t) : eligibleB now t = true := by
  induction ts with
  | nil => cases h
  | cons a as ih =>
    simp only [selectTask] at h
    rcases h2 : selectTask now as with _ | b <;> simp only [h2] at h
    · split at h
      · rename_i hcond
        injection h with h
        subst h
        exact hcond
      · exact absurd h (by simp)
    · split at h
      · rename_i hcond
        injection h with h
        subst h
        exact ((Bool.and_eq_true ..).mp hcond).1
      · injection h with h
        subst h
        exact ih h2

/-- A selected task is a row of the table. -/
theorem selectTask_mem {now : Int} {ts : List ReceiptTask} {t : ReceiptTask}
    (h : selectTask now ts = some t) : t ∈ ts := by
  induction ts with
  | nil => cases h
  | cons a as ih =>
    simp only [selectTask] at h
    rcases h2 : selectTask now as with _ | b <;> simp only [h2] at h
    · split at h
      · injection h with h
        subst h
        exact List.mem_cons_self ..
      · exact absurd h (by simp)
    · split at h
      · injection h with h
        subst h
        exact List.mem_cons_self ..
      · injection h with h
        subst h
        exact List.mem_cons_of_mem _ (ih h2)

/-- The dispatch `try:` block never touches the task row or the store row,
never changes which event row is loaded, and only appends to the trace. -/
theorem dispatch_sess (env : Env) (db : DB) (s : Sess) :
    (dispatchTask env db s).1.task = s.task ∧
    (dispatchTask env db s).1.store = s.store ∧
    (dispatchTask env db s).1.event.id = s.event.id ∧
    ∃ Δ, (dispatchTask env db s).1.trace = s.trace ++ Δ := by
  rw [dispatchTask]
  cases htt : s.task.task_type
  case create_receipt =>
    rw [runCreate]
    cases hpf : createAmount s with
    | error m => exact ⟨rfl, rfl, rfl, [], by simp⟩
    | ok amount =>
      cases hcr : env.createResult with
      | error e => exact ⟨rfl, rfl, rfl, _, rfl⟩
      | ok res =>
        cases hs : (notify_store env.chatFail db.channels s.store.id "receipt_created"
            ("Receipt created for payment " ++ s.task.payment_id) res.receipt_url).2 with
        | none =>
          simp only [hs]
          refine ⟨?_, ?_, ?_, ?_⟩ <;>
            first
              | trivial
              | rfl
              | (simp only [List.append_assoc]; exact ⟨_, rfl⟩)
        | some m =>
          simp only [hs]
          refine ⟨?_, ?_, ?_, ?_⟩ <;>
            first
              | trivial
              | rfl
              | (simp only [List.append_assoc]; exact ⟨_, rfl⟩)
  case cancel_receipt =>
    rw [runCancel]
    cases htr : JValue.truthy (cancelUuid s)
    case false => exact ⟨rfl, rfl, rfl, [], by simp⟩
    case true =>
      rw [if_neg (by decide : ¬ (true = false))]
      cases hcr : env.cancelResult with
      | error e => exact ⟨rfl, rfl, rfl, _, rfl⟩
      | ok v =>
        cases hmr : mostRecentReceipt s.receipts s.store.id s.task.payment_id with
        | some r =>
          cases hs : (notify_store env.chatFail db.channels s.store.id "receipt_canceled"
              ("Receipt canceled for payment " ++ s.task.payment_id) "").2 with
          | none =>
            simp only [hs]
            refine ⟨?_, ?_, ?_, ?_⟩ <;>
              first
                | trivial
                | rfl
                | (simp only [List.append_assoc]; exact ⟨_, rfl⟩)
          | some m =>
            simp only [hs]
            refine ⟨?_, ?_, ?_, ?_⟩ <;>
              first
                | trivial
                | rfl
                | (simp only [List.append_assoc]; exact ⟨_, rfl⟩)
        | none =>
          cases hs : (notify_store env.chatFail db.channels s.store.id "receipt_canceled"
              ("Receipt canceled for payment " ++ s.task.payment_id) "").2 with
          | none =>
            simp only [hs]
            refine ⟨?_, ?_, ?_, ?_⟩ <;>
              first
                | trivial
                | rfl
                | (simp only [List.append_assoc]; exact ⟨_, rfl⟩)
          | some m =>
            simp only [hs]
            refine ⟨?_, ?_, ?_, ?_⟩ <;>
              first
                | trivial
                | rfl
                | (simp only [List.append_assoc]; exact ⟨_, rfl⟩)

/-- FIFO: the selected task has the least `created_at` among eligible rows. -/
theorem selectTask_min {now : Int} {ts : List ReceiptTask} {t : ReceiptTask}
    (h : selectTask now ts = some t) :
    ∀ u ∈ ts, eligibleB now u = true → t.created_at ≤ u.created_at := by
  induction ts generalizing t with
  | nil => cases h
  | cons a as ih =>
    intro u hu hue
    simp only [selectTask] at h
    rcases h2 : selectTask now as with _ | b <;> simp only [h2] at h
    · split at h
      · injection h with h
        subst h
        rcases List.mem_cons.mp hu with rfl | hu2
        · exact le_refl _
        · exact absurd (selectTask_none h2 u hu2) (by simp [hue])
      · exact absurd h (by simp)
    · split at h
      · rename_i hcond
        injection h with h
        subst h
        rw [Bool.and_eq_true, decide_eq_true_eq] at hcond
        rcases List.mem_cons.mp hu with rfl | hu2
        · exact le_refl _
        · exact le_trans hcond.2 (ih h2 u hu2 hue)
      · rename_i hcond
        injection h with h
        subst h
        rw [Bool.and_eq_true] at hcond
        push_neg at hcond
        rcases List.mem_cons.mp hu with rfl | hu2
        · have hnb := hcond hue
          have hgt : ¬ (u.created_at ≤ b.created_at) := by simpa using hnb
          omega
        · exact ih h2 u hu2 hue

/-- Shape of a tick that selected `t`: the trace opens with the durable flush
of the `processing`/`attempts+1` mark, and the task table is either rewritten
at `t.id` only, or untouched (rollback). -/
theorem process_shape (env : Env) (db : DB) (t : ReceiptTask)
    (h : selectTask env.now db.tasks = some t) :
    ∃ (ft : ReceiptTask) (Δ : List Ev),
      (process_one_task env db).trace = Ev.flushTask (markProcessing t) :: Δ ∧
      ((process_one_task env db).db.tasks = updTasks ft db.tasks ∨
        (process_one_task env db).db.tasks = db.tasks) ∧
      ft.id = t.id := by
  rw [process_one_task]
  simp only [h]
  rcases hfs : findStore db.stores t.store_id with _ | store <;>
    rcases hfe : findEvent db.events t.event_id with _ | event <;>
      simp only [hfs, hfe]
  case none.none => exact ⟨_, _, rfl, Or.inl rfl, rfl⟩
  case none.some => exact ⟨_, _, rfl, Or.inl rfl, rfl⟩
  case some.none => exact ⟨_, _, rfl, Or.inl rfl, rfl⟩
  case some.some =>
    rcases hpr : store.mytax_profile with _ | profile <;> simp only [hpr]
    · exact ⟨_, _, rfl, Or.inl rfl, rfl⟩
    · obtain ⟨htask, hstore, hevid, Δ0, htr⟩ :=
        dispatch_sess env db (mkSess0 db (markProcessing t) store event)
      have hflush : (dispatchTask env db (mkSess0 db (markProcessing t) store event)).1.trace =
          Ev.flushTask (markProcessing t) :: Δ0 := by
        rw [htr]; rfl
      rcases hout : (dispatchTask env db (mkSess0 db (markProcessing t) store event)).2 with e | u
      case error =>
        cases e with
        | auth m =>
          simp only [hout]
          rcases hsent : (notify_store env.chatFail db.channels t.store_id
              "mytax_auth_required" ("MyTax re-authentication required: " ++ m) "").2 with
            _ | exc <;> simp only [hsent]
          · refine ⟨_, Δ0 ++ Ev.notifyCall t.store_id "mytax_auth_required"
              ("MyTax re-authentication required: " ++ m) ::
              (notify_store env.chatFail db.channels t.store_id "mytax_auth_required"
                ("MyTax re-authentication required: " ++ m) "").1.map Ev.chatPost
              ++ [Ev.commit], ?_, Or.inl rfl, ?_⟩
            · show (dispatchTask env db (mkSess0 db (markProcessing t) store event)).1.trace
                ++ _ ++ [Ev.commit] = _
              rw [hflush]
              simp [List.append_assoc]
            · show (dispatchTask env db (mkSess0 db (markProcessing t) store event)).1.task.id
                = t.id
              rw [htask]
              rfl
          · refine ⟨markProcessing t, Δ0 ++ Ev.notifyCall t.store_id "mytax_auth_required"
              ("MyTax re-authentication required: " ++ m) ::
              (notify_store env.chatFail db.channels t.store_id "mytax_auth_required"
                ("MyTax re-authentication required: " ++ m) "").1.map Ev.chatPost, ?_,
              Or.inr trivial, rfl⟩
            show (dispatchTask env db (mkSess0 db (markProcessing t) store event)).1.trace
              ++ _ = _
            rw [hflush]
            simp [List.append_assoc]
        | generic m =>
          simp only [hout]
          refine ⟨_, Δ0 ++ [Ev.commit], ?_, Or.inl rfl, ?_⟩
          · show (dispatchTask env db (mkSess0 db (markProcessing t) store event)).1.trace
              ++ [Ev.commit] = _
            rw [hflush]
            rfl
          · simp only [genericFinalize, addLog]
            rw [htask]
            split <;> rfl
      case ok =>
        simp only [hout]
        refine ⟨_, Δ0 ++ [Ev.commit], ?_, Or.inl rfl, ?_⟩
        · show (dispatchTask env db (mkSess0 db (markProcessing t) store event)).1.trace
            ++ [Ev.commit] = _
          rw [hflush]
          rfl
        · show (dispatchTask env db (mkSess0 db (markProcessing t) store event)).1.task.id = t.id
          rw [htask]
          rfl

/-! ## Claim theorems -/

/-- **C1.** On every worker tick, `process_one_task` selects at most one task:
one whose status is `pending` or `waiting_auth` with `next_retry_at ≤ now`,
of least `created_at` among all eligible tasks; an empty eligible set makes
the tick a no-op; and the selected task is flushed with status `processing`
and `attempts` incremented by exactly one as the *first* trace event — before
any provider call or notification (which can only appear after the head of
the trace); every other task row is left unchanged. -/
theorem C1_tick_selects_fifo_and_marks (env : Env) (db : DB) :
    (selectTask env.now db.tasks = none →
      process_one_task env db = ⟨db, [], false⟩) ∧
    (∀ t, selectTask env.now db.tasks = some t →
      eligibleB env.now t = true ∧
      t ∈ db.tasks ∧
      (∀ u ∈ db.tasks, eligibleB env.now u = true → t.created_at ≤ u.created_at) ∧
      (process_one_task env db).trace.head? = some (Ev.flushTask (markProcessing t)) ∧
      (markProcessing t).status = TaskStatus.processing ∧
      (markProcessing t).attempts = t.attempts + 1 ∧
      (∀ u ∈ db.tasks, u.id ≠ t.id → u ∈ (process_one_task env db).db.tasks)) := by
  constructor
  · intro h
    rw [process_one_task, h]
  · intro t ht
    obtain ⟨ft, Δ, htr, hdisj, hid⟩ := process_shape env db t ht
    refine ⟨selectTask_eligible ht, selectTask_mem ht, selectTask_min ht, ?_, rfl, rfl, ?_⟩
    · rw [htr]
      rfl
    · intro u hu hne
      rcases hdisj with hupd | hkeep
      · rw [hupd]
        exact mem_updBy_other _ hu (by simpa [hid] using hne)
      · rw [hkeep]
        exact hu

/-! Demo fixtures: a concrete store/profile/event/task database and
environments driving each worker path. -/

def demoProfile : MyTaxProfile := ⟨1, .unofficial_api, true, ""⟩

def demoStore : Store :=
  ⟨1, "Оплата заказа \x7b\x7bpayment_id\x7d\x7d", "object.amount.value", "object.id",
    "object.metadata.customer_name", .retry_until_200, 5, false, some demoProfile⟩

def demoEvent : PaymentEvent :=
  ⟨1, 1, "p1",
    .obj [("object", .obj [("id", .str "p1"), ("amount", .obj [("value", .str "150.50")])])],
    .received, "pending", "", none⟩

def demoTask : ReceiptTask :=
  ⟨1, 1, 1, "p1", .create_receipt, .obj [], .pending, 0, 20, 0, "", 10⟩

/-- A later-created, also-eligible sibling task. -/
def demoTask2 : ReceiptTask :=
  ⟨2, 1, 1, "p1", .create_receipt, .obj [], .pending, 0, 20, 0, "", 11⟩

def demoDB : DB := ⟨[demoStore], [demoEvent], [demoTask, demoTask2], [], [], [], [], 1⟩

def demoEnv : Env :=
  ⟨1000, .ok ⟨"u1", "https://r/1", .obj []⟩, .ok (.obj []),
    fun _ _ => .status 200, fun _ => none⟩

/-- Witness for C1 at the demo database: the earlier-created of the two
eligible tasks is selected, marked, and flushed first; the sibling row is
untouched. -/
theorem C1_witness :
    selectTask demoEnv.now demoDB.tasks = some demoTask ∧
    (eligibleB demoEnv.now demoTask = true ∧
      demoTask ∈ demoDB.tasks ∧
      (∀ u ∈ demoDB.tasks, eligibleB demoEnv.now u = true →
        demoTask.created_at ≤ u.created_at) ∧
      (process_one_task demoEnv demoDB).trace.head? =
        some (Ev.flushTask (markProcessing demoTask)) ∧
      (markProcessing demoTask).status = TaskStatus.processing ∧
      (markProcessing demoTask).attempts = demoTask.attempts + 1 ∧
      (∀ u ∈ demoDB.tasks, u.id ≠ demoTask.id →
        u ∈ (process_one_task demoEnv demoDB).db.tasks)) :=
  ⟨rfl, (C1_tick_selects_fifo_and_marks demoEnv demoDB).2 demoTask rfl⟩

theorem notifyLoop_snd_none (fail : Nat → Option String) (en m url : String)
    (cs : List TelegramChannel) (k : Nat) (h : ∀ j, fail j = none) :
    (notifyLoop fail en m url cs k).2 = none := by
  induction cs generalizing k with
  | nil => rfl
  | cons c cs ih =>
    simp only [notifyLoop]
    split
    · simp only [h k]
      simpa using ih (k + 1)
    · exact ih k

theorem notify_store_snd_none (fail : Nat → Option String)
    (channels : List TelegramChannel) (sid : Nat) (en m url : String)
    (h : ∀ j, fail j = none) :
    (notify_store fail channels sid en m url).2 = none :=
  notifyLoop_snd_none fail en m url _ 0 h

/-- **C2.** HTTP 401 and 403 are mapped to the distinguished authentication
error before any other status handling, and a task whose dispatch raises it —
regardless of its `attempts` counter — is parked `waiting_auth` with
`next_retry_at = now + 900 s`, the originating event is failed with the error
text, the credential profile is de-authenticated with the error recorded, and
the dedicated re-authentication chat notification is emitted. -/
theorem C2_auth_error_path :
    (∀ r : HttpResponse, r.status = 401 ∨ r.status = 403 →
      requestDispatch r =
        .authError "Ошибка авторизации в Мой Налог, требуется повторный вход") ∧
    (∀ (env : Env) (db : DB) (t : ReceiptTask) (store : Store) (event : PaymentEvent)
        (profile : MyTaxProfile) (m : String),
      selectTask env.now db.tasks = some t →
      findStore db.stores t.store_id = some store →
      findEvent db.events t.event_id = some event →
      store.mytax_profile = some profile →
      (dispatchTask env db (mkSess0 db (markProcessing t) store event)).2 =
        .error (.auth m) →
      (∀ k, env.chatFail k = none) →
      { t with
          status := TaskStatus.waiting_auth
          attempts := t.attempts + 1
          error_message := m
          next_retry_at := env.now + 900 }
        ∈ (process_one_task env db).db.tasks ∧
      (∃ e ∈ (process_one_task env db).db.events,
        e.id = event.id ∧ e.status = EventStatus.failed ∧ e.error_message = m) ∧
      (∃ st ∈ (process_one_task env db).db.stores,
        st.id = store.id ∧
        st.mytax_profile =
          some { profile with is_authenticated := false, last_error := m }) ∧
      Ev.notifyCall t.store_id "mytax_auth_required"
          ("MyTax re-authentication required: " ++ m)
        ∈ (process_one_task env db).trace ∧
      (process_one_task env db).uncaught = false) := by
  constructor
  · intro r hr
    rw [requestDispatch, if_pos hr]
  · intro env db t store event profile m hsel hst hev hpr hdisp hchat
    obtain ⟨htask, hstore, hevid, Δ0, htr⟩ :=
      dispatch_sess env db (mkSess0 db (markProcessing t) store event)
    have hsent : (notify_store env.chatFail db.channels t.store_id
        "mytax_auth_required" ("MyTax re-authentication required: " ++ m) "").2 = none :=
      notify_store_snd_none _ _ _ _ _ _ hchat
    rw [process_one_task]
    simp only [hsel, hst, hev, hpr, hdisp, hsent]
    refine ⟨?_, ?_, ?_, ?_, by first | rfl | trivial⟩
    · have hft : (authFinalize env m
          (dispatchTask env db (mkSess0 db (markProcessing t) store event)).1).task =
          { t with
              status := TaskStatus.waiting_auth
              attempts := t.attempts + 1
              error_message := m
              next_retry_at := env.now + 900 } := by
        simp only [authFinalize, addLog]
        rw [htask]
        rfl
      rw [← hft]
      exact mem_updBy_self _ (selectTask_mem hsel) (by rw [hft])
    · refine ⟨(authFinalize env m
        (dispatchTask env db (mkSess0 db (markProcessing t) store event)).1).event, ?_, ?_, rfl, rfl⟩
      · refine mem_updBy_self _ (findEvent_mem hev).1 ?_
        show event.id = _
        simp only [authFinalize, addLog]
        rw [hevid]
        rfl
      · show (authFinalize env m _).event.id = event.id
        simp only [authFinalize, addLog]
        rw [hevid]
        rfl
    · refine ⟨(authFinalize env m
        (dispatchTask env db (mkSess0 db (markProcessing t) store event)).1).store, ?_, ?_, ?_⟩
      · refine mem_updBy_self _ (findStore_mem hst).1 ?_
        show store.id = _
        simp only [authFinalize, addLog]
        rw [hstore]
        rfl
      · show (authFinalize env m _).store.id = store.id
        simp only [authFinalize, addLog]
        rw [hstore]
        rfl
      · show (authFinalize env m _).store.mytax_profile = _
        simp only [authFinalize, addLog]
        rw [hstore]
        show (store.mytax_profile.map _) = _
        rw [hpr]
        rfl
    · exact List.mem_append_left _ (List.mem_append_right _ (List.mem_cons_self ..))

/-- Environment whose provider call raises the authentication error. -/
def demoEnvAuth : Env :=
  ⟨1000, .error (.auth "Ошибка авторизации в Мой Налог, требуется повторный вход"),
    .error (.auth "Ошибка авторизации в Мой Налог, требуется повторный вход"),
    fun _ _ => .status 200, fun _ => none⟩

theorem C2_witness :
    requestDispatch ⟨401, "", "", none⟩ =
      .authError "Ошибка авторизации в Мой Налог, требуется повторный вход" ∧
    ({ demoTask with
        status := TaskStatus.waiting_auth
        attempts := demoTask.attempts + 1
        error_message := "Ошибка авторизации в Мой Налог, требуется повторный вход"
        next_retry_at := demoEnvAuth.now + 900 }
      ∈ (process_one_task demoEnvAuth demoDB).db.tasks ∧
      (∃ e ∈ (process_one_task demoEnvAuth demoDB).db.events,
        e.id = demoEvent.id ∧ e.status = EventStatus.failed ∧
        e.error_message = "Ошибка авторизации в Мой Налог, требуется повторный вход") ∧
      (∃ st ∈ (process_one_task demoEnvAuth demoDB).db.stores,
        st.id = demoStore.id ∧
        st.mytax_profile = some { demoProfile with
          is_authenticated := false
          last_error := "Ошибка авторизации в Мой Налог, требуется повторный вход" }) ∧
      Ev.notifyCall demoTask.store_id "mytax_auth_required"
          ("MyTax re-authentication required: " ++
            "Ошибка авторизации в Мой Налог, требуется повторный вход")
        ∈ (process_one_task demoEnvAuth demoDB).trace ∧
      (process_one_task demoEnvAuth demoDB).uncaught = false) :=
  ⟨C2_auth_error_path.1 ⟨401, "", "", none⟩ (Or.inl rfl),
    C2_auth_error_path.2 demoEnvAuth demoDB demoTask demoStore demoEvent demoProfile
      "Ошибка авторизации в Мой Налог, требуется повторный вход"
      rfl rfl rfl rfl rfl (fun _ => rfl)⟩

/-- Shared shape of the generic-`Exception` handler (buckets 2 and 3 of the
failure taxonomy): used by the backoff claim and by the cancel-validation
claim, whose `ValueError` lands in the same handler. -/
theorem worker_generic_bucket :
    (∀ (env : Env) (db : DB) (t : ReceiptTask) (store : Store) (event : PaymentEvent)
        (profile : MyTaxProfile) (m : String),
      selectTask env.now db.tasks = some t →
      findStore db.stores t.store_id = some store →
      findEvent db.events t.event_id = some event →
      store.mytax_profile = some profile →
      (dispatchTask env db (mkSess0 db (markProcessing t) store event)).2 =
        .error (.generic m) →
      ((t.attempts + 1 < t.max_attempts →
        { t with
            status := TaskStatus.pending
            attempts := t.attempts + 1
            error_message := m
            next_retry_at := env.now + (backoff (t.attempts + 1) : Int) }
          ∈ (process_one_task env db).db.tasks) ∧
      (t.max_attempts ≤ t.attempts + 1 →
        { t with
            status := TaskStatus.failed
            attempts := t.attempts + 1
            error_message := m }
          ∈ (process_one_task env db).db.tasks) ∧
      (∃ e ∈ (process_one_task env db).db.events,
        e.id = event.id ∧ e.status = EventStatus.failed ∧ e.error_message = m) ∧
      (process_one_task env db).uncaught = false)) := by
  intro env db t store event profile m hsel hst hev hpr hdisp
  obtain ⟨htask, hstore, hevid, Δ0, htr⟩ :=
    dispatch_sess env db (mkSess0 db (markProcessing t) store event)
  rw [process_one_task]
  simp only [hsel, hst, hev, hpr, hdisp]
  refine ⟨?_, ?_, ?_, by first | rfl | trivial⟩
  · intro hlt
    have hft : (genericFinalize env m
        (dispatchTask env db (mkSess0 db (markProcessing t) store event)).1).task =
        { t with
            status := TaskStatus.pending
            attempts := t.attempts + 1
            error_message := m
            next_retry_at := env.now + (backoff (t.attempts + 1) : Int) } := by
      simp only [genericFinalize, addLog]
      rw [htask]
      have hcond : ¬ ((mkSess0 db (markProcessing t) store event).task.max_attempts ≤
          (mkSess0 db (markProcessing t) store event).task.attempts) := by
        show ¬ (t.max_attempts ≤ t.attempts + 1)
        omega
      rw [if_neg hcond]
      rfl
    rw [← hft]
    exact mem_updBy_self _ (selectTask_mem hsel) (by rw [hft])
  · intro hge
    have hft : (genericFinalize env m
        (dispatchTask env db (mkSess0 db (markProcessing t) store event)).1).task =
        { t with
            status := TaskStatus.failed
            attempts := t.attempts + 1
            error_message := m } := by
      simp only [genericFinalize, addLog]
      rw [htask]
      have hcond : (mkSess0 db (markProcessing t) store event).task.max_attempts ≤
          (mkSess0 db (markProcessing t) store event).task.attempts := by
        show t.max_attempts ≤ t.attempts + 1
        omega
      rw [if_pos hcond]
      rfl
    rw [← hft]
    exact mem_updBy_self _ (selectTask_mem hsel) (by rw [hft])
  · refine ⟨(genericFinalize env m
      (dispatchTask env db (mkSess0 db (markProcessing t) store event)).1).event, ?_, ?_, rfl, rfl⟩
    · refine mem_updBy_self _ (findEvent_mem hev).1 ?_
      show event.id = _
      simp only [genericFinalize, addLog]
      rw [hevid]
      rfl
    · show (genericFinalize env m _).event.id = event.id
      simp only [genericFinalize, addLog]
      rw [hevid]
      rfl


/-- **C3.** A generic (non-authentication) dispatch failure reschedules the
task: with post-increment `attempts < max_attempts` it returns to `pending`
with `next_retry_at = now + min(300, attempts·20)` — a linear backoff capped
at 300 s and monotone in the attempt count — and with `attempts ≥
max_attempts` it becomes terminally `failed`; either way the originating
event is failed with the error text.  `backoff 3 = 60` is the spec\x27s
attempt-3 example. -/
theorem C3_generic_failure_backoff :
    (∀ a b : Nat, a ≤ b → backoff a ≤ backoff b) ∧
    (∀ a : Nat, backoff a ≤ 300) ∧
    backoff 3 = 60 ∧
    (∀ (env : Env) (db : DB) (t : ReceiptTask) (store : Store) (event : PaymentEvent)
        (profile : MyTaxProfile) (m : String),
      selectTask env.now db.tasks = some t →
      findStore db.stores t.store_id = some store →
      findEvent db.events t.event_id = some event →
      store.mytax_profile = some profile →
      (dispatchTask env db (mkSess0 db (markProcessing t) store event)).2 =
        .error (.generic m) →
      ((t.attempts + 1 < t.max_attempts →
        { t with
            status := TaskStatus.pending
            attempts := t.attempts + 1
            error_message := m
            next_retry_at := env.now + (backoff (t.attempts + 1) : Int) }
          ∈ (process_one_task env db).db.tasks) ∧
      (t.max_attempts ≤ t.attempts + 1 →
        { t with
            status := TaskStatus.failed
            attempts := t.attempts + 1
            error_message := m }
          ∈ (process_one_task env db).db.tasks) ∧
      (∃ e ∈ (process_one_task env db).db.events,
        e.id = event.id ∧ e.status = EventStatus.failed ∧ e.error_message = m) ∧
      (process_one_task env db).uncaught = false)) := by
  refine ⟨?_, ?_, rfl, ?_⟩
  · intro a b hab
    rw [backoff, backoff, Nat.min_def, Nat.min_def]
    split <;> split <;> omega
  · intro a
    rw [backoff, Nat.min_def]
    split <;> omega
  · exact worker_generic_bucket

/-- Environment whose provider call raises a generic error. -/
def demoEnvGeneric : Env :=
  ⟨1000, .error (.generic "MyTax API error 500: boom"),
    .error (.generic "MyTax API error 500: boom"),
    fun _ _ => .status 200, fun _ => none⟩

/-- Picked on its third attempt (post-increment `attempts = 3`). -/
def demoTaskA3 : ReceiptTask :=
  ⟨1, 1, 1, "p1", .create_receipt, .obj [], .pending, 2, 20, 0, "", 10⟩

/-- Picked on its twentieth attempt (post-increment `attempts = 20 = max`). -/
def demoTaskA20 : ReceiptTask :=
  ⟨1, 1, 1, "p1", .create_receipt, .obj [], .pending, 19, 20, 0, "", 10⟩

def demoDB3 : DB := ⟨[demoStore], [demoEvent], [demoTaskA3], [], [], [], [], 1⟩

def demoDB20 : DB := ⟨[demoStore], [demoEvent], [demoTaskA20], [], [], [], [], 1⟩

theorem C3_witness :
    backoff 1 ≤ backoff 2 ∧
    backoff 20 ≤ 300 ∧
    ({ demoTaskA3 with
        status := TaskStatus.pending
        attempts := 3
        error_message := "MyTax API error 500: boom"
        next_retry_at := demoEnvGeneric.now + (backoff 3 : Int) }
      ∈ (process_one_task demoEnvGeneric demoDB3).db.tasks) ∧
    ({ demoTaskA20 with
        status := TaskStatus.failed
        attempts := 20
        error_message := "MyTax API error 500: boom" }
      ∈ (process_one_task demoEnvGeneric demoDB20).db.tasks) ∧
    (∃ e ∈ (process_one_task demoEnvGeneric demoDB3).db.events,
      e.id = demoEvent.id ∧ e.status = EventStatus.failed ∧
      e.error_message = "MyTax API error 500: boom") :=
  ⟨C3_generic_failure_backoff.1 1 2 (by decide),
    C3_generic_failure_backoff.2.1 20,
    ((C3_generic_failure_backoff.2.2.2 demoEnvGeneric demoDB3 demoTaskA3 demoStore demoEvent
        demoProfile "MyTax API error 500: boom" rfl rfl rfl rfl rfl).1 (by decide)),
    ((C3_generic_failure_backoff.2.2.2 demoEnvGeneric demoDB20 demoTaskA20 demoStore demoEvent
        demoProfile "MyTax API error 500: boom" rfl rfl rfl rfl rfl).2.1 (by decide)),
    ((C3_generic_failure_backoff.2.2.2 demoEnvGeneric demoDB3 demoTaskA3 demoStore demoEvent
        demoProfile "MyTax API error 500: boom" rfl rfl rfl rfl rfl).2.2.1)⟩

/-! C4: a `cancel_receipt` task without `receipt_uuid` raises
`ValueError(\x27receipt_uuid is required for cancel task\x27)` — but nothing
marks it non-retryable: it is caught by the generic `except Exception`
handler and rescheduled like any transient failure. -/

/-- A cancel task whose payload carries no `receipt_uuid`, on its first
attempt, far below `max_attempts`. -/
def demoTaskCancelNoUuid : ReceiptTask :=
  ⟨1, 1, 1, "p1", .cancel_receipt, .obj [], .pending, 0, 20, 0, "", 10⟩

def demoDBCancelNoUuid : DB :=
  ⟨[demoStore], [demoEvent], [demoTaskCancelNoUuid], [], [], [], [], 1⟩

/-- **C4 counterexample.** After the tick, the task is `pending` with
`next_retry_at = now + 20` — rescheduled for retry, not `failed` — although
its payload has no `receipt_uuid` and 19 attempts remain below the ceiling. -/
theorem C4_counterexample :
    (process_one_task demoEnv demoDBCancelNoUuid).db.tasks.map
        (fun t => (t.status, t.next_retry_at, t.attempts, t.error_message)) =
      [(TaskStatus.pending, 1020, 1, "receipt_uuid is required for cancel task")] := by
  decide

/-- The missing-uuid validation error short-circuits the dispatch with the
`ValueError` text, before any provider call. -/
theorem cancel_no_uuid_dispatch (env : Env) (db : DB) (s : Sess)
    (htype : s.task.task_type = TaskType.cancel_receipt)
    (huuid : JValue.truthy (cancelUuid s) = false) :
    dispatchTask env db s =
      (s, .error (.generic "receipt_uuid is required for cancel task")) := by
  rw [dispatchTask, htype, runCancel, if_pos huuid]

/-- **C4 (amended).** A `cancel_receipt` task whose payload lacks a truthy
`receipt_uuid` raises the validation error, which follows the *generic*
failure path: while post-increment `attempts < max_attempts` the task goes
back to `pending` with the linear backoff (it keeps being rescheduled), and
only once `attempts ≥ max_attempts` does it become `failed`; the event is
failed with the validation message either way. -/
theorem C4_cancel_without_uuid_is_retried :
    ∀ (env : Env) (db : DB) (t : ReceiptTask) (store : Store) (event : PaymentEvent)
      (profile : MyTaxProfile),
      selectTask env.now db.tasks = some t →
      findStore db.stores t.store_id = some store →
      findEvent db.events t.event_id = some event →
      store.mytax_profile = some profile →
      t.task_type = TaskType.cancel_receipt →
      JValue.truthy (JValue.dictGetD t.payload "receipt_uuid" (.str "")) = false →
      (dispatchTask env db (mkSess0 db (markProcessing t) store event)).2 =
        .error (.generic "receipt_uuid is required for cancel task") ∧
      (t.attempts + 1 < t.max_attempts →
        { t with
            status := TaskStatus.pending
            attempts := t.attempts + 1
            error_message := "receipt_uuid is required for cancel task"
            next_retry_at := env.now + (backoff (t.attempts + 1) : Int) }
          ∈ (process_one_task env db).db.tasks) ∧
      (t.max_attempts ≤ t.attempts + 1 →
        { t with
            status := TaskStatus.failed
            attempts := t.attempts + 1
            error_message := "receipt_uuid is required for cancel task" }
          ∈ (process_one_task env db).db.tasks) ∧
      (∃ e ∈ (process_one_task env db).db.events,
        e.id = event.id ∧ e.status = EventStatus.failed ∧
        e.error_message = "receipt_uuid is required for cancel task") := by
  intro env db t store event profile hsel hst hev hpr htype huuid
  have hdisp : (dispatchTask env db (mkSess0 db (markProcessing t) store event)).2 =
      .error (.generic "receipt_uuid is required for cancel task") := by
    rw [cancel_no_uuid_dispatch env db (mkSess0 db (markProcessing t) store event)
      (by exact htype) (by exact huuid)]
  obtain ⟨h1, h2, h3, _⟩ :=
    worker_generic_bucket env db t store event profile
      "receipt_uuid is required for cancel task" hsel hst hev hpr hdisp
  exact ⟨hdisp, h1, h2, h3⟩

theorem C4_witness :
    (dispatchTask demoEnv demoDBCancelNoUuid
        (mkSess0 demoDBCancelNoUuid (markProcessing demoTaskCancelNoUuid) demoStore demoEvent)).2 =
      .error (.generic "receipt_uuid is required for cancel task") ∧
    ({ demoTaskCancelNoUuid with
        status := TaskStatus.pending
        attempts := 1
        error_message := "receipt_uuid is required for cancel task"
        next_retry_at := demoEnv.now + (backoff 1 : Int) }
      ∈ (process_one_task demoEnv demoDBCancelNoUuid).db.tasks) :=
  ⟨(C4_cancel_without_uuid_is_retried demoEnv demoDBCancelNoUuid demoTaskCancelNoUuid
      demoStore demoEvent demoProfile rfl rfl rfl rfl rfl rfl).1,
    (C4_cancel_without_uuid_is_retried demoEnv demoDBCancelNoUuid demoTaskCancelNoUuid
      demoStore demoEvent demoProfile rfl rfl rfl rfl rfl rfl).2.1 (by decide)⟩

theorem mostRecentAux_none {l : List Receipt} (h : mostRecentAux l = none) : l = [] := by
  cases l with
  | nil => rfl
  | cons a as =>
    simp only [mostRecentAux] at h
    rcases h2 : mostRecentAux as with _ | b <;> simp only [h2] at h
    · exact absurd h (by simp)
    · split at h <;> exact absurd h (by simp)

theorem mostRecentAux_some {l : List Receipt} {r : Receipt} (h : mostRecentAux l = some r) :
    r ∈ l ∧ ∀ x ∈ l, x.created_at ≤ r.created_at := by
  induction l generalizing r with
  | nil => cases h
  | cons a as ih =>
    simp only [mostRecentAux] at h
    rcases h2 : mostRecentAux as with _ | b <;> simp only [h2] at h
    · injection h with h
      subst h
      refine ⟨List.mem_cons_self .., ?_⟩
      intro x hx
      rcases List.mem_cons.mp hx with rfl | hx2
      · exact le_refl _
      · rw [mostRecentAux_none h2] at hx2
        cases hx2
    · split at h
      · rename_i hcond
        injection h with h
        subst h
        refine ⟨List.mem_cons_self .., ?_⟩
        intro x hx
        rcases List.mem_cons.mp hx with rfl | hx2
        · exact le_refl _
        · have hb := (ih h2).2 x hx2
          rw [decide_eq_true_eq] at hcond
          omega
      · rename_i hcond
        injection h with h
        subst h
        refine ⟨List.mem_cons_of_mem _ (ih h2).1, ?_⟩
        intro x hx
        rcases List.mem_cons.mp hx with rfl | hx2
        · rw [decide_eq_true_eq] at hcond
          push_neg at hcond
          omega
        · exact (ih h2).2 x hx2

/-- The `cancel_receipt` branch of the `try:` block rewrites exactly the
receipt row the status-blind `ORDER BY created_at DESC LIMIT 1` lookup
returned (when any row of the pair exists), and touches nothing else. -/
theorem runCancel_receipts (env : Env) (db : DB) (s : Sess) (v : JValue)
    (huuid : JValue.truthy (cancelUuid s) = true) (hcr : env.cancelResult = .ok v) :
    (runCancel env db s).1.receipts =
      (match mostRecentReceipt s.receipts s.store.id s.task.payment_id with
       | some r =>
          updReceipts { r with status := ReceiptStatus.canceled,
                               canceled_at := some env.now } s.receipts
       | none => s.receipts) ∧
    (runCancel env db s).1.new_receipts = s.new_receipts := by
  rw [runCancel, if_neg (by simp [huuid])]
  simp only [hcr]
  rcases hmr : mostRecentReceipt s.receipts s.store.id s.task.payment_id with _ | r <;>
    simp only [hmr] <;>
      (cases hsent : (notify_store env.chatFail db.channels s.store.id "receipt_canceled"
          ("Receipt canceled for payment " ++ s.task.payment_id) "").2 <;>
        simp only [hsent] <;> refine ⟨?_, ?_⟩ <;> first | rfl | trivial)

/-- An older, still-`created` receipt of the pair. -/
def demoReceiptOld : Receipt :=
  ⟨1, 1, 1, "p1", "u-old", "", ⟨1505, 1⟩, "RUB", "d", .created, .obj [], 1, none⟩

/-- A newer receipt of the same pair that is already `canceled`. -/
def demoReceiptNew : Receipt :=
  ⟨2, 1, 1, "p1", "u-new", "", ⟨1505, 1⟩, "RUB", "d", .canceled, .obj [], 2, none⟩

def demoTaskCancel : ReceiptTask :=
  ⟨1, 1, 1, "p1", .cancel_receipt, .obj [("receipt_uuid", .str "u-old")], .pending, 0, 20, 0, "", 10⟩

def demoDBCancel : DB :=
  ⟨[demoStore], [demoEvent], [demoTaskCancel], [demoReceiptOld, demoReceiptNew], [], [], [], 3⟩

/-- **C5 counterexample.** The lookup has no status filter: with an older
`created` receipt and a newer already-`canceled` one for the same
`(store, payment_id)`, the tick re-marks the canceled row (id 2) and leaves
the `created` row (id 1) untouched — the marked receipt did *not* have
status `created` at lookup time, and the most recent *non-canceled* receipt
is not the one marked. -/
theorem C5_counterexample :
    mostRecentReceipt demoDBCancel.receipts 1 "p1" = some demoReceiptNew ∧
    demoReceiptNew.status = ReceiptStatus.canceled ∧
    demoReceiptOld.status = ReceiptStatus.created ∧
    demoReceiptOld.created_at < demoReceiptNew.created_at ∧
    (process_one_task demoEnv demoDBCancel).db.receipts.map
        (fun r => (r.id, r.status, r.canceled_at)) =
      [(1, ReceiptStatus.created, none), (2, ReceiptStatus.canceled, some 1000)] :=
  ⟨rfl, rfl, rfl, by decide, by decide⟩

/-- **C5 (amended).** A successful cancel marks the most recent receipt of
`(store, payment_id)` *regardless of its status* — an already-canceled newer
row wins over an older `created` one — setting `canceled_at := now`; when no
receipt of the pair exists, the receipts table is unchanged. -/
theorem C5_cancel_marks_most_recent_any_status :
    (∀ (receipts : List Receipt) (sid : Nat) (pid : String) (r : Receipt),
      mostRecentReceipt receipts sid pid = some r →
      r ∈ receipts ∧ r.store_id = sid ∧ r.payment_id = pid ∧
        ∀ x ∈ receipts, x.store_id = sid → x.payment_id = pid →
          x.created_at ≤ r.created_at) ∧
    (∀ (receipts : List Receipt) (sid : Nat) (pid : String),
      mostRecentReceipt receipts sid pid = none →
      ∀ x ∈ receipts, ¬(x.store_id = sid ∧ x.payment_id = pid)) ∧
    (∀ (env : Env) (db : DB) (s : Sess) (v : JValue),
      JValue.truthy (cancelUuid s) = true → env.cancelResult = .ok v →
      (runCancel env db s).1.receipts =
        (match mostRecentReceipt s.receipts s.store.id s.task.payment_id with
         | some r =>
            updReceipts { r with status := ReceiptStatus.canceled,
                                 canceled_at := some env.now } s.receipts
         | none => s.receipts) ∧
      (runCancel env db s).1.new_receipts = s.new_receipts) := by
  refine ⟨?_, ?_, ?_⟩
  · intro receipts sid pid r h
    rw [mostRecentReceipt] at h
    obtain ⟨hm, hmin⟩ := mostRecentAux_some h
    obtain ⟨hmem, hprop⟩ := List.mem_filter.mp hm
    rw [Bool.and_eq_true, beq_iff_eq, beq_iff_eq] at hprop
    refine ⟨hmem, hprop.1, hprop.2, ?_⟩
    intro x hx h1 h2
    exact hmin x (List.mem_filter.mpr ⟨hx, by simp [h1, h2]⟩)
  · intro receipts sid pid h x hx hprops
    have hnil := mostRecentAux_none (by rw [mostRecentReceipt] at h; exact h)
    have : x ∈ receipts.filter
        (fun r => r.store_id == sid && r.payment_id == pid) :=
      List.mem_filter.mpr ⟨hx, by simp [hprops.1, hprops.2]⟩
    rw [hnil] at this
    cases this
  · intro env db s v huuid hcr
    exact runCancel_receipts env db s v huuid hcr

theorem C5_witness :
    (demoReceiptNew ∈ demoDBCancel.receipts ∧ demoReceiptNew.store_id = 1 ∧
      demoReceiptNew.payment_id = "p1" ∧
      ∀ x ∈ demoDBCancel.receipts, x.store_id = 1 → x.payment_id = "p1" →
        x.created_at ≤ demoReceiptNew.created_at) ∧
    ((runCancel demoEnv demoDBCancel
        (mkSess0 demoDBCancel (markProcessing demoTaskCancel) demoStore demoEvent)).1.receipts =
      updReceipts { demoReceiptNew with status := ReceiptStatus.canceled,
                                        canceled_at := some 1000 }
        demoDBCancel.receipts) :=
  ⟨C5_cancel_marks_most_recent_any_status.1 demoDBCancel.receipts 1 "p1" demoReceiptNew rfl,
    ((C5_cancel_marks_most_recent_any_status.2.2 demoEnv demoDBCancel
        (mkSess0 demoDBCancel (markProcessing demoTaskCancel) demoStore demoEvent)
        (.obj []) rfl rfl).1)⟩

/-! C6: the amount coercion `float(context.get(\x27amount\x27, 0) or 0)`
treats *missing or falsy* values as zero, but a truthy unparseable value is
not coerced to zero — `float` raises and the task goes down the generic
failure path. -/

/-- Event payload whose amount at the configured path is the unparseable
string `"abc"`. -/
def demoEventBadAmount : PaymentEvent :=
  ⟨1, 1, "p1",
    .obj [("object", .obj [("id", .str "p1"), ("amount", .obj [("value", .str "abc")])])],
    .received, "pending", "", none⟩

def demoDBBadAmount : DB :=
  ⟨[demoStore], [demoEventBadAmount], [demoTask], [], [], [], [], 1⟩

/-- Event payload with no amount at the configured path. -/
def demoEventNoAmount : PaymentEvent :=
  ⟨1, 1, "p1", .obj [("object", .obj [("id", .str "p1")])], .received, "pending", "", none⟩

/-- **C6 counterexample.** With amount `"abc"` at the configured path,
processing does not continue with amount 0: `float("abc")` raises, no
receipt is persisted, and the task is rescheduled with the `ValueError`
text. -/
theorem C6_counterexample :
    pyFloat (JValue.str "abc") =
      .error "could not convert string to float: \x27abc\x27" ∧
    (process_one_task demoEnv demoDBBadAmount).db.receipts = [] ∧
    (process_one_task demoEnv demoDBBadAmount).db.tasks.map
        (fun t => (t.status, t.error_message)) =
      [(TaskStatus.pending, "could not convert string to float: \x27abc\x27")] :=
  ⟨rfl, rfl, by decide⟩

/-- **C6 (amended).** Missing and falsy (empty-string) amounts coerce to 0;
a parseable decimal string coerces to its exact value (`"150.50"` to the
decimal `1505/10 = 301/2`, which is both handed to the provider call and
persisted as `Receipt.amount`); a truthy unparseable value makes the
coercion raise, which short-circuits the dispatch into the generic failure
path instead of continuing with amount 0. -/
theorem C6_amount_coercion :
    (∀ s : Sess, resolvePath s.event.payload (splitDot s.store.amount_path.data) = none →
      createAmount s = .ok ⟨0, 0⟩) ∧
    (∀ s : Sess, resolvePath s.event.payload (splitDot s.store.amount_path.data) =
        some (.str "") → createAmount s = .ok ⟨0, 0⟩) ∧
    (∀ s : Sess, resolvePath s.event.payload (splitDot s.store.amount_path.data) =
        some (.str "150.50") → createAmount s = .ok ⟨1505, 1⟩) ∧
    Dec.toRat ⟨1505, 1⟩ = 301 / 2 ∧
    (∀ (env : Env) (db : DB) (s : Sess) (m : String),
      s.task.task_type = TaskType.create_receipt → createAmount s = .error m →
      dispatchTask env db s = (s, .error (.generic m))) ∧
    (process_one_task demoEnv demoDB).db.receipts.map (fun r => r.amount) = [⟨1505, 1⟩] ∧
    (process_one_task demoEnv demoDB).trace.get? 1 =
      some (Ev.providerCreate
        (createDescription (mkSess0 demoDB (markProcessing demoTask) demoStore demoEvent))
        ⟨1505, 1⟩ "p1") := by
  refine ⟨?_, ?_, ?_, ?_, ?_, by decide, rfl⟩
  · intro s hres
    have hg : JValue.getD (build_context s.event.payload s.store) "amount" (.int 0) =
        get_nested s.event.payload s.store.amount_path (.int 0) := rfl
    rw [createAmount, hg, get_nested, hres]
    rfl
  · intro s hres
    have hg : JValue.getD (build_context s.event.payload s.store) "amount" (.int 0) =
        get_nested s.event.payload s.store.amount_path (.int 0) := rfl
    rw [createAmount, hg, get_nested, hres]
    rfl
  · intro s hres
    have hg : JValue.getD (build_context s.event.payload s.store) "amount" (.int 0) =
        get_nested s.event.payload s.store.amount_path (.int 0) := rfl
    rw [createAmount, hg, get_nested, hres]
    rfl
  · rw [Dec.toRat]
    norm_num
  · intro env db s m htype hca
    have h1 : dispatchTask env db s = runCreate env db s := by
      rw [dispatchTask, htype]
    rw [h1, runCreate, hca]

theorem C6_witness :
    createAmount (mkSess0 demoDB (markProcessing demoTask) demoStore demoEventNoAmount) =
      .ok ⟨0, 0⟩ ∧
    createAmount (mkSess0 demoDB (markProcessing demoTask) demoStore demoEvent) =
      .ok ⟨1505, 1⟩ ∧
    dispatchTask demoEnv demoDBBadAmount
        (mkSess0 demoDBBadAmount (markProcessing demoTask) demoStore demoEventBadAmount) =
      (mkSess0 demoDBBadAmount (markProcessing demoTask) demoStore demoEventBadAmount,
        .error (.generic "could not convert string to float: \x27abc\x27")) :=
  ⟨C6_amount_coercion.1 _ rfl,
    C6_amount_coercion.2.2.1 _ rfl,
    C6_amount_coercion.2.2.2.2.1 demoEnv demoDBBadAmount _
      "could not convert string to float: \x27abc\x27" rfl rfl⟩

/-! C7: the renderer.  `renderFuel` with any sufficient fuel agrees with
`renderAux`, a match consumes its token, and brace-free text passes through
unchanged. -/

theorem renderFuel_congr (ctx : JValue) :
    ∀ f1 f2 cs, List.length cs ≤ f1 → List.length cs ≤ f2 →
      renderFuel ctx f1 cs = renderFuel ctx f2 cs := by
  intro f1
  induction f1 with
  | zero =>
    intro f2 cs h1 _
    have hnil : cs = [] := List.eq_nil_of_length_eq_zero (Nat.le_zero.mp h1)
    subst hnil
    cases f2 <;> rfl
  | succ a ih =>
    intro f2 cs h1 h2
    cases cs with
    | nil => cases f2 <;> rfl
    | cons c cs' =>
      cases f2 with
      | zero => simp at h2
      | succ b =>
        simp only [renderFuel]
        rcases htm : tryMatch (c :: cs') with _ | ⟨key, rem⟩ <;> simp only [htm]
        · rw [ih b cs' (by simp only [List.length_cons] at h1; omega)
            (by simp only [List.length_cons] at h2; omega)]
        · have hlen := tryMatch_length htm
          simp only [List.length_cons] at h1 h2 hlen
          rw [ih b rem (by omega) (by omega)]

theorem renderAux_cons_none (ctx : JValue) {c : Char} {cs : List Char}
    (htm : tryMatch (c :: cs) = none) :
    renderAux ctx (c :: cs) = c :: renderAux ctx cs := by
  show renderFuel ctx (cs.length + 1) (c :: cs) = _
  simp only [renderFuel, htm]
  rfl

theorem renderAux_cons_match (ctx : JValue) {c : Char} {cs rem : List Char} {key : String}
    (htm : tryMatch (c :: cs) = some (key, rem)) :
    renderAux ctx (c :: cs) = (substToken ctx key).data ++ renderAux ctx rem := by
  show renderFuel ctx (cs.length + 1) (c :: cs) = _
  simp only [renderFuel, htm]
  congr 1
  have hlen := tryMatch_length htm
  simp only [List.length_cons] at hlen
  exact renderFuel_congr ctx cs.length rem.length rem (by omega) (le_refl _)

theorem tryMatch_none_of_head {c : Char} (h : c ≠ '{') (cs : List Char) :
    tryMatch (c :: cs) = none := by
  cases cs with
  | nil => rfl
  | cons c2 rest =>
    simp only [tryMatch]
    rw [if_neg (fun hc => h hc.1)]

theorem nameChar_not_space {c : Char} (h : isNameChar c = true) : isSpaceChar c = false := by
  rcases hB : isSpaceChar c with _ | _
  · rfl
  · exfalso
    simp only [isSpaceChar, isPyWs, Bool.or_eq_true, decide_eq_true_eq] at hB
    rcases hB with ((((h1 | h1) | h1) | h1) | h1) | h1 <;> subst h1 <;>
      exact absurd h (by decide)

theorem takeWhile_all_append {α : Type} (q : α → Bool) {l : List α} {x : α} {r : List α}
    (hall : ∀ a ∈ l, q a = true) (hx : q x = false) :
    (l ++ x :: r).takeWhile q = l := by
  induction l with
  | nil => simp [List.takeWhile_cons, hx]
  | cons a as ih =>
    simp [List.cons_append, List.takeWhile_cons, hall a (List.mem_cons_self ..),
      ih (fun b hb => hall b (List.mem_cons_of_mem _ hb))]

theorem dropWhile_all_append {α : Type} (q : α → Bool) {l : List α} {x : α} {r : List α}
    (hall : ∀ a ∈ l, q a = true) (hx : q x = false) :
    (l ++ x :: r).dropWhile q = x :: r := by
  induction l with
  | nil => simp [List.dropWhile_cons, hx]
  | cons a as ih =>
    simp [List.cons_append, List.dropWhile_cons, hall a (List.mem_cons_self ..),
      ih (fun b hb => hall b (List.mem_cons_of_mem _ hb))]

theorem tryMatch_token {p : List Char} (hp : p ≠ [])
    (hpn : ∀ c ∈ p, isNameChar c = true) (rest : List Char) :
    tryMatch ('{' :: '{' :: (p ++ '}' :: '}' :: rest)) = some (String.mk p, rest) := by
  obtain ⟨c0, p', rfl⟩ := List.exists_cons_of_ne_nil hp
  have h0n : isNameChar c0 = true := hpn c0 (List.mem_cons_self ..)
  have h0 : isSpaceChar c0 = false := nameChar_not_space h0n
  have hws : List.dropWhile isSpaceChar ((c0 :: p') ++ '}' :: '}' :: rest) =
      (c0 :: p') ++ '}' :: '}' :: rest := by
    simp [List.dropWhile_cons, h0]
  have htk : List.takeWhile isNameChar ((c0 :: p') ++ '}' :: '}' :: rest) = c0 :: p' :=
    takeWhile_all_append _ hpn (by decide)
  have hdr : List.dropWhile isNameChar ((c0 :: p') ++ '}' :: '}' :: rest) =
      '}' :: '}' :: rest :=
    dropWhile_all_append _ hpn (by decide)
  have hrb : isSpaceChar '}' = false := by decide
  have hws2 : List.dropWhile isSpaceChar ('}' :: '}' :: rest) = '}' :: '}' :: rest := by
    simp [List.dropWhile_cons, hrb]
  simp only [tryMatch, hws, htk, hdr, hws2]
  rw [if_pos (⟨trivial, trivial⟩ : True ∧ True)]

theorem renderAux_append_no_brace (ctx : JValue) {pre rest : List Char}
    (h : ∀ c ∈ pre, c ≠ '{') :
    renderAux ctx (pre ++ rest) = pre ++ renderAux ctx rest := by
  induction pre with
  | nil => simp
  | cons c pre' ih =>
    rw [List.cons_append,
      renderAux_cons_none ctx (tryMatch_none_of_head (h c (List.mem_cons_self ..)) _),
      ih (fun a ha => h a (List.mem_cons_of_mem _ ha))]
    rfl

def demoCtx : JValue :=
  .obj [("object", .obj [("amount", .obj [("value", .str "99.00")]),
                         ("metadata", .obj [("customer_name", .str "Ann")])])]

/-- **C7.** `render_template` is pure substitution over
`\x7b\x7bdotted.path\x7d\x7d` tokens: a resolving path is replaced by its
value (dicts/lists as JSON text, scalars via `str`), an unresolved path by
the empty string, and text outside tokens — any brace-free segment — passes
through unchanged; the spec\x27s example renders to `"Paid 99.00 by Ann"`. -/
theorem C7_render_template_substitution :
    render_template
        "Paid \x7b\x7bobject.amount.value\x7d\x7d by \x7b\x7bobject.metadata.customer_name\x7d\x7d"
        demoCtx = "Paid 99.00 by Ann" ∧
    (∀ (ctx : JValue) (p : String) (v : JValue),
      resolvePath ctx (splitDot p.data) = some v →
      substToken ctx p =
        (match v with
         | .obj fs => dumps (.obj fs)
         | .arr xs => dumps (.arr xs)
         | _ => pyStr v)) ∧
    (∀ (ctx : JValue) (p : String),
      resolvePath ctx (splitDot p.data) = none → substToken ctx p = "") ∧
    (∀ (ctx : JValue) (pre p post : String),
      (∀ c ∈ pre.data, c ≠ '{') → p.data ≠ [] →
      (∀ c ∈ p.data, isNameChar c = true) →
      render_template (pre ++ "\x7b\x7b" ++ p ++ "\x7d\x7d" ++ post) ctx =
        pre ++ substToken ctx p ++ render_template post ctx) ∧
    (∀ (ctx : JValue) (s : String), (∀ c ∈ s.data, c ≠ '{') →
      render_template s ctx = s) := by
  refine ⟨rfl, ?_, ?_, ?_, ?_⟩
  · intro ctx p v h
    rw [substToken, h]
  · intro ctx p h
    rw [substToken, h]
  · intro ctx pre p post hpre hp hpn
    have hdata : (pre ++ "\x7b\x7b" ++ p ++ "\x7d\x7d" ++ post).data =
        pre.data ++ ('{' :: '{' :: (p.data ++ '}' :: '}' :: post.data)) := by
      simp [String.data_append]
    apply String.ext
    show renderAux ctx (pre ++ "\x7b\x7b" ++ p ++ "\x7d\x7d" ++ post).data = _
    rw [hdata, renderAux_append_no_brace ctx hpre,
      renderAux_cons_match ctx (tryMatch_token hp hpn post.data)]
    simp [String.data_append]
    rfl
  · intro ctx s h
    apply String.ext
    show renderAux ctx s.data = s.data
    have h0 : renderAux ctx ([] : List Char) = [] := rfl
    have h2 := @renderAux_append_no_brace ctx s.data [] h
    simpa [h0] using h2

theorem C7_witness :
    substToken demoCtx "object.amount.value" = "99.00" ∧
    substToken demoCtx "object.missing" = "" ∧
    render_template
        ("Paid " ++ "\x7b\x7b" ++ "object.amount.value" ++ "\x7d\x7d" ++ "!") demoCtx =
      "Paid " ++ substToken demoCtx "object.amount.value" ++ render_template "!" demoCtx ∧
    render_template "plain text" demoCtx = "plain text" :=
  ⟨by
      have := C7_render_template_substitution.2.1 demoCtx "object.amount.value"
        (.str "99.00") rfl
      simpa using this,
    C7_render_template_substitution.2.2.1 demoCtx "object.missing" rfl,
    C7_render_template_substitution.2.2.2.1 demoCtx "Paid " "object.amount.value" "!"
      (by decide) (by decide) (by decide),
    C7_render_template_substitution.2.2.2.2 demoCtx "plain text" (by decide)⟩

/-! C8: chat fan-out.  Channel targeting and message formatting are as
specified, but the per-channel posts are *not* isolated: the source has no
try/except around `client.post`, so one raising post aborts the loop. -/

theorem notifyLoop_all_ok (fail : Nat → Option String) (en m url : String)
    (h : ∀ j, fail j = none) :
    ∀ (cs : List TelegramChannel) (k : Nat),
      notifyLoop fail en m url cs k =
        ((cs.filter (channelAllows en)).map
          (fun c => mkChatMessage c (chatFullText m url c)), none) := by
  intro cs
  induction cs with
  | nil => intro k; rfl
  | cons c cs ih =>
    intro k
    cases hca : channelAllows en c
    · simp [notifyLoop, List.filter_cons, hca, ih k]
    · simp [notifyLoop, List.filter_cons, hca, h k, ih (k + 1)]

theorem notifyLoop_abort (fail : Nat → Option String) (en m url : String) :
    ∀ (cs : List TelegramChannel) (k j : Nat) (e : String),
      (∀ i, i < j → fail (k + i) = none) → fail (k + j) = some e →
      j < (cs.filter (channelAllows en)).length →
      notifyLoop fail en m url cs k =
        (((cs.filter (channelAllows en)).take j).map
          (fun c => mkChatMessage c (chatFullText m url c)), some e) := by
  intro cs
  induction cs with
  | nil =>
    intro k j e _ _ h3
    simp at h3
  | cons c cs ih =>
    intro k j e h1 h2 h3
    cases hca : channelAllows en c
    · simp [List.filter_cons, hca] at h3 ⊢
      simp only [notifyLoop, hca]
      simp only [Bool.false_eq_true, if_false]
      exact (ih k j e h1 h2 (by simpa using h3)).trans (by simp [List.map_take])
    · cases j with
      | zero =>
        have h2' : fail k = some e := by simpa using h2
        simp [notifyLoop, hca, h2', List.filter_cons]
      | succ j' =>
        have hk : fail k = none := by simpa using h1 0 (Nat.succ_pos j')
        have hrec := ih (k + 1) j' e
          (fun i hi => by
            rw [show k + 1 + i = k + (i + 1) by omega]
            exact h1 (i + 1) (by omega))
          (by rw [show k + 1 + j' = k + (j' + 1) by omega]; exact h2)
          (by simp [List.filter_cons, hca] at h3; omega)
        simp [notifyLoop, hca, hk, hrec, List.filter_cons]

def demoChan1 : TelegramChannel := ⟨1, 1, "tokA", "chatA", none, [], true, true⟩

def demoChan2 : TelegramChannel := ⟨2, 1, "tokB", "chatB", none, [], true, true⟩

/-- The first post of the call raises; later posts would succeed. -/
def failFirst : Nat → Option String :=
  fun k => if k = 0 then some "ConnectError: boom" else none

/-- **C8 counterexample.** Two channels are active and pass the event
filter, yet when the first post raises, zero messages are delivered and the
exception propagates — the second channel is never attempted, so one
channel\x27s failure does prevent delivery to the remaining channels. -/
theorem C8_counterexample :
    (([demoChan1, demoChan2].filter
        (fun c => c.store_id == 1 && c.is_active)).filter
          (channelAllows "receipt_created")).length = 2 ∧
    notify_store failFirst [demoChan1, demoChan2] 1 "receipt_created" "hello" "" =
      ([], some "ConnectError: boom") := by
  exact ⟨by decide, by decide⟩

/-- **C8 (amended).** `notify_store` targets exactly the active channels of
the store whose event filter is empty or contains the event name, formatting
each message with the receipt-URL suffix iff the channel opts in and the URL
is non-empty; deliveries happen sequentially and are *not* isolated: the
first raising post aborts the loop after delivering only the messages before
it, and the exception propagates to the caller. -/
theorem C8_notify_targeting_and_abort :
    (∀ (fail : Nat → Option String) (channels : List TelegramChannel) (sid : Nat)
        (en m url : String),
      (∀ j, fail j = none) →
      notify_store fail channels sid en m url =
        (((channels.filter (fun c => c.store_id == sid && c.is_active)).filter
            (channelAllows en)).map
          (fun c => mkChatMessage c (chatFullText m url c)), none)) ∧
    (∀ (fail : Nat → Option String) (channels : List TelegramChannel) (sid : Nat)
        (en m url : String) (j : Nat) (e : String),
      (∀ i, i < j → fail i = none) → fail j = some e →
      j < ((channels.filter (fun c => c.store_id == sid && c.is_active)).filter
        (channelAllows en)).length →
      notify_store fail channels sid en m url =
        ((((channels.filter (fun c => c.store_id == sid && c.is_active)).filter
            (channelAllows en)).take j).map
          (fun c => mkChatMessage c (chatFullText m url c)), some e)) ∧
    (∀ (m url : String) (c : TelegramChannel),
      chatFullText m url c =
        if c.include_receipt_url && url ≠ "" then m ++ "\nЧек: " ++ url else m) ∧
    (∀ (en : String) (c : TelegramChannel),
      channelAllows en c = (c.events_json.isEmpty || c.events_json.contains en)) := by
  refine ⟨?_, ?_, ?_, ?_⟩
  · intro fail channels sid en m url h
    exact notifyLoop_all_ok fail en m url h _ 0
  · intro fail channels sid en m url j e h1 h2 h3
    exact notifyLoop_abort fail en m url _ 0 j e (fun i hi => by simpa using h1 i hi)
      (by simpa using h2) h3
  · intro m url c
    rfl
  · intro en c
    rw [channelAllows]
    cases hje : c.events_json.isEmpty <;> cases hc : c.events_json.contains en <;> simp [hje, hc]

theorem C8_witness :
    notify_store (fun _ => none) [demoChan1, demoChan2] 1 "receipt_created" "hello"
        "https://r/1" =
      ([mkChatMessage demoChan1 (chatFullText "hello" "https://r/1" demoChan1),
        mkChatMessage demoChan2 (chatFullText "hello" "https://r/1" demoChan2)], none) ∧
    notify_store failFirst [demoChan1, demoChan2] 1 "receipt_created" "hello" "" =
      (([demoChan1, demoChan2].take 0).map
        (fun c => mkChatMessage c (chatFullText "hello" "" c)), some "ConnectError: boom") :=
  ⟨by
      have := C8_notify_targeting_and_abort.1 (fun _ => none) [demoChan1, demoChan2] 1
        "receipt_created" "hello" "https://r/1" (fun _ => rfl)
      simpa using this,
    by
      have := C8_notify_targeting_and_abort.2.1 failFirst [demoChan1, demoChan2] 1
        "receipt_created" "hello" "" 0 "ConnectError: boom"
        (fun i hi => absurd hi (by omega)) rfl (by decide)
      simpa using this⟩

/-! C9: the `retry_until_200` loop runs `range(max(1, relay_retry_limit))`
iterations — at least one even for a zero or negative limit — stopping at the
first HTTP 200; a target that never returns 200 forces the aggregate
status to `"error"`. -/

theorem retryLoop_no200 (outcome : Nat → AttemptResult) :
    ∀ (fuel i : Nat), (∀ j, j < fuel → outcome (i + j) ≠ .status 200) →
      retryLoop outcome i fuel = (false, fuel) := by
  intro fuel
  induction fuel with
  | zero => intro i _; rfl
  | succ f ih =>
    intro i h
    simp only [retryLoop]
    split
    · rename_i heq
      exact absurd heq (by simpa using h 0 (by omega))
    · rw [ih (i + 1) (fun j hj => by
        rw [show i + 1 + j = i + (j + 1) by omega]
        exact h (j + 1) (by omega))]

theorem retryLoop_first200 (outcome : Nat → AttemptResult) :
    ∀ (fuel i j : Nat), j < fuel →
      (∀ j2, j2 < j → outcome (i + j2) ≠ .status 200) →
      outcome (i + j) = .status 200 →
      retryLoop outcome i fuel = (true, j + 1) := by
  intro fuel
  induction fuel with
  | zero => intro i j hj; omega
  | succ f ih =>
    intro i j hj hprev h200
    simp only [retryLoop]
    cases j with
    | zero =>
      have h0 : outcome i = .status 200 := by simpa using h200
      rw [h0]
    | succ j' =>
      split
      · rename_i heq
        exact absurd heq (by simpa using hprev 0 (by omega))
      · rw [ih (i + 1) j' (by omega)
          (fun j2 hj2 => by
            rw [show i + 1 + j2 = i + (j2 + 1) by omega]
            exact hprev (j2 + 1) (by omega))
          (by rw [show i + 1 + j' = i + (j' + 1) by omega]; exact h200)]

theorem relayFold_error_stable (outcomes : Nat → Nat → AttemptResult) (store : Store)
    (hmode : store.relay_mode = RelayMode.retry_until_200) :
    ∀ (ts : List RelayTarget) (idx : Nat),
      relayFold outcomes store ts idx "error" = "error" := by
  intro ts
  induction ts with
  | nil => intro idx; rfl
  | cons t ts ih =>
    intro idx
    simp only [relayFold, hmode]
    split <;> exact ih (idx + 1)

theorem relayFold_error_of_failed (outcomes : Nat → Nat → AttemptResult) (store : Store)
    (hmode : store.relay_mode = RelayMode.retry_until_200) :
    ∀ (ts : List RelayTarget) (idx k : Nat) (status : String),
      k < ts.length →
      (retryLoop (outcomes (idx + k)) 0 (retryCount store.relay_retry_limit)).1 = false →
      relayFold outcomes store ts idx status = "error" := by
  intro ts
  induction ts with
  | nil =>
    intro idx k status hk hfail
    simp at hk
  | cons t ts ih =>
    intro idx k status hk hfail
    simp only [relayFold, hmode]
    cases k with
    | zero =>
      simp only [Nat.add_zero] at hfail
      rw [if_neg (by simp [hfail])]
      exact relayFold_error_stable outcomes store hmode ts (idx + 1)
    | succ k' =>
      split
      · exact ih (idx + 1) k' status (by simpa using hk)
          (by rw [show idx + 1 + k' = idx + (k' + 1) by omega]; exact hfail)
      · exact relayFold_error_stable outcomes store hmode ts (idx + 1)

/-- **C9.** `retry_until_200` relay delivery makes `max(1, relay_retry_limit)`
attempts per target — at least one even when the stored limit is zero or
negative — stops a target at its first HTTP 200 (using `k+1` attempts when
attempt `k` is the first 200), and a target none of whose attempts returns
200 makes the aggregate relay status `"error"`. -/
theorem C9_relay_retry_semantics :
    (∀ l : Int, 1 ≤ retryCount l ∧ (l ≤ 0 → retryCount l = 1) ∧
      (1 ≤ l → retryCount l = l.toNat)) ∧
    (∀ (outcome : Nat → AttemptResult) (l : Int),
      (∀ j, j < retryCount l → outcome j ≠ .status 200) →
      retryLoop outcome 0 (retryCount l) = (false, retryCount l)) ∧
    (∀ (outcome : Nat → AttemptResult) (l : Int) (j : Nat),
      j < retryCount l →
      (∀ j2, j2 < j → outcome j2 ≠ .status 200) →
      outcome j = .status 200 →
      retryLoop outcome 0 (retryCount l) = (true, j + 1)) ∧
    (∀ (outcomes : Nat → Nat → AttemptResult) (targets : List RelayTarget) (store : Store)
        (k : Nat),
      store.relay_mode = RelayMode.retry_until_200 →
      k < (targets.filter (fun t => t.store_id == store.id && t.is_active)).length →
      (retryLoop (outcomes k) 0 (retryCount store.relay_retry_limit)).1 = false →
      relay_notification outcomes targets store = "error") := by
  refine ⟨?_, ?_, ?_, ?_⟩
  · intro l
    refine ⟨?_, ?_, ?_⟩
    · rw [retryCount]
      omega
    · intro hl
      rw [retryCount]
      omega
    · intro hl
      rw [retryCount]
      omega
  · intro outcome l h
    exact retryLoop_no200 outcome (retryCount l) 0 (fun j hj => by simpa using h j hj)
  · intro outcome l j hj hprev h200
    exact retryLoop_first200 outcome (retryCount l) 0 j hj
      (fun j2 hj2 => by simpa using hprev j2 hj2) (by simpa using h200)
  · intro outcomes targets store k hmode hk hfail
    rw [relay_notification]
    rw [if_neg (by
      intro hnil
      have hn2 : (targets.filter (fun t => t.store_id == store.id && t.is_active)) = [] := by
        simpa using hnil
      rw [hn2] at hk
      simp at hk)]
    exact relayFold_error_of_failed outcomes store hmode _ 0 k "success" hk
      (by simpa using hfail)

def demoRelayTarget : RelayTarget := ⟨1, 1, "https://hook", "POST", "", true⟩

/-- A store in retry mode with a *negative* stored retry limit. -/
def demoStoreNegLimit : Store :=
  ⟨1, "d", "object.amount.value", "object.id", "object.metadata.customer_name",
    .retry_until_200, -3, false, some demoProfile⟩

theorem C9_witness :
    retryCount (-3) = 1 ∧
    retryLoop (fun _ => AttemptResult.exn) 0 (retryCount (-3)) = (false, 1) ∧
    retryLoop (fun _ => AttemptResult.status 200) 0 (retryCount 5) = (true, 1) ∧
    relay_notification (fun _ _ => AttemptResult.status 500) [demoRelayTarget]
      demoStoreNegLimit = "error" :=
  ⟨(C9_relay_retry_semantics.1 (-3)).2.1 (by decide),
    by
      have := C9_relay_retry_semantics.2.1 (fun _ => AttemptResult.exn) (-3)
        (fun j _ => by simp)
      simpa using this,
    C9_relay_retry_semantics.2.2.1 (fun _ => AttemptResult.status 200) 5 0 (by decide)
      (fun j2 hj2 => absurd hj2 (by omega)) rfl,
    C9_relay_retry_semantics.2.2.2 (fun _ _ => AttemptResult.status 500) [demoRelayTarget]
      demoStoreNegLimit 0 rfl (by decide) (by decide)⟩


/-! ### C10 — receipt identifier fallbacks in `create_receipt` -/

theorem toDigitsCore_len_ge (b : Nat) : ∀ (f n : Nat) (l : List Char),
    l.length ≤ (Nat.toDigitsCore b f n l).length := by
  intro f
  induction f with
  | zero => intro n l; simp [Nat.toDigitsCore]
  | succ f ih =>
    intro n l
    simp only [Nat.toDigitsCore]
    split
    · simp
    · exact Nat.le_trans (by simp) (ih _ _)

theorem toDigits_ten_ne_nil (n : Nat) : Nat.toDigits 10 n ≠ [] := by
  have h1 : 1 ≤ (Nat.toDigits 10 n).length := by
    simp only [Nat.toDigits, Nat.toDigitsCore]
    split
    · simp
    · exact Nat.le_trans (by simp) (toDigitsCore_len_ge 10 n (n / 10) _)
  intro h
  rw [h] at h1
  simp at h1

theorem nat_repr_ne_empty (n : Nat) : Nat.repr n ≠ "" := by
  intro h
  exact toDigits_ten_ne_nil n (by
    have := congrArg String.data h
    simpa [Nat.repr, List.asString] using this)

theorem int_toString_ne_empty (n : Int) : toString n ≠ "" := by
  cases n with
  | ofNat m => exact nat_repr_ne_empty m
  | negSucc m =>
    intro h
    have := congrArg String.data h
    simp [String.data_append] at this
    exact absurd this (by simp [toString, String.data_append])

theorem floatStr_ne_empty (d : Dec) : floatStr d ≠ "" := by
  intro h
  have := congrArg String.data h
  simp only [floatStr, String.data_append] at this
  rcases List.append_eq_nil.mp this with ⟨h1, h2⟩
  rcases List.append_eq_nil.mp h1 with ⟨h3, h4⟩
  exact absurd h4 (by simp [String.data])

theorem pyRepr_arr_ne_empty (xs : List JValue) : pyRepr (.arr xs) ≠ "" := by
  intro h
  rw [pyRepr] at h
  have := congrArg String.data h
  simp only [String.data_append] at this
  rcases List.append_eq_nil.mp this with ⟨h1, h2⟩
  rcases List.append_eq_nil.mp h1 with ⟨h3, h4⟩
  exact absurd h3 (by simp [String.data])

theorem pyRepr_obj_ne_empty (fs : List (String × JValue)) : pyRepr (.obj fs) ≠ "" := by
  intro h
  rw [pyRepr] at h
  have := congrArg String.data h
  simp only [String.data_append] at this
  rcases List.append_eq_nil.mp this with ⟨h1, h2⟩
  rcases List.append_eq_nil.mp h1 with ⟨h3, h4⟩
  exact absurd h3 (by simp [String.data])

/-- `str(v)` of a Python-truthy value is never the empty string. -/
theorem pyStr_ne_empty_of_truthy (v : JValue) (h : JValue.truthy v = true) :
    pyStr v ≠ "" := by
  cases v with
  | null => simp [JValue.truthy] at h
  | bool b =>
    cases b with
    | false => simp [JValue.truthy] at h
    | true => simp [pyStr]
  | int n => exact int_toString_ne_empty n
  | float d => exact floatStr_ne_empty d
  | str s => simpa [JValue.truthy] using h
  | arr xs => exact pyRepr_arr_ne_empty xs
  | obj fs => exact pyRepr_obj_ne_empty fs

theorem pyOr_of_falsy (a b : JValue) (h : JValue.truthy a = false) :
    JValue.pyOr a b = b := by
  simp [JValue.pyOr, h]

theorem pyStr_pyOr_ne_empty (a b : JValue) (hb : pyStr b ≠ "") :
    pyStr (JValue.pyOr a b) ≠ "" := by
  unfold JValue.pyOr
  split
  · rename_i ht
    exact pyStr_ne_empty_of_truthy a ht
  · exact hb

/-- Counterexample to the claim C10 that `create_receipt` always yields a
non-empty `receipt_uuid`: when the provider response carries none of the
recognised fields and the task's `payment_id` is itself the empty string
(the ingestion default when the configured path does not resolve), both
client variants produce an empty `receipt_uuid`. -/
theorem C10_counterexample :
    (unofficialCreateResult (.obj []) "").receipt_uuid = ""
    ∧ (officialCreateResult (.obj []) "").receipt_uuid = "" := ⟨rfl, rfl⟩

/-- C10 (amended): for every provider response `raw` and non-empty
`payment_id`, both client variants yield a non-empty `receipt_uuid`; when all
recognised uuid fields of the response are falsy the `payment_id` is used
verbatim; when the response carries no truthy `receiptUrl`, the unofficial
variant synthesises `receipt_url` as `base_url ++ "/web/receipts/" ++ uuid`,
while the official variant falls back to the empty `receipt_url`. -/
theorem C10_create_receipt_uuid_url_fallbacks (raw : JValue) (payment_id : String)
    (hpid : payment_id ≠ "") :
    (unofficialCreateResult raw payment_id).receipt_uuid ≠ ""
    ∧ (officialCreateResult raw payment_id).receipt_uuid ≠ ""
    ∧ (JValue.truthy (rawGet raw "approvedReceiptUuid") = false →
       JValue.truthy (rawGet raw "receiptUuid") = false →
       JValue.truthy (rawGet raw "id") = false →
       (unofficialCreateResult raw payment_id).receipt_uuid = payment_id)
    ∧ (JValue.truthy (rawGet raw "receipt_uuid") = false →
       (officialCreateResult raw payment_id).receipt_uuid = payment_id)
    ∧ (JValue.truthy (rawGet raw "receiptUrl") = false →
       (unofficialCreateResult raw payment_id).receipt_url =
         unofficial_base_url ++ "/web/receipts/"
           ++ (unofficialCreateResult raw payment_id).receipt_uuid)
    ∧ (JValue.truthy (rawGet raw "receipt_url") = false →
       (officialCreateResult raw payment_id).receipt_url = "") := by
  refine ⟨?_, ?_, ?_, ?_, ?_, ?_⟩
  · exact pyStr_pyOr_ne_empty _ _ (pyStr_pyOr_ne_empty _ _ (pyStr_pyOr_ne_empty _ _ hpid))
  · exact pyStr_pyOr_ne_empty _ _ hpid
  · intro h1 h2 h3
    show pyStr (JValue.pyOr (rawGet raw "approvedReceiptUuid")
      (JValue.pyOr (rawGet raw "receiptUuid")
        (JValue.pyOr (rawGet raw "id") (.str payment_id)))) = payment_id
    rw [pyOr_of_falsy _ _ h1, pyOr_of_falsy _ _ h2, pyOr_of_falsy _ _ h3]
    rfl
  · intro h
    show pyStr (JValue.pyOr (rawGet raw "receipt_uuid") (.str payment_id)) = payment_id
    rw [pyOr_of_falsy _ _ h]
    rfl
  · intro h
    show pyStr (JValue.pyOr (rawGet raw "receiptUrl")
      (.str (unofficial_base_url ++ "/web/receipts/"
        ++ unofficialReceiptUuid raw payment_id))) = _
    rw [pyOr_of_falsy _ _ h]
    rfl
  · intro h
    show pyStr (JValue.pyOr (rawGet raw "receipt_url") (.str "")) = ""
    rw [pyOr_of_falsy _ _ h]
    rfl

/-- Concrete instance of C10: an empty provider response together with
`payment_id = "p1"` exercises every fallback at once. -/
theorem C10_witness :
    (unofficialCreateResult (JValue.obj []) "p1").receipt_uuid ≠ ""
    ∧ (officialCreateResult (JValue.obj []) "p1").receipt_uuid ≠ ""
    ∧ (unofficialCreateResult (JValue.obj []) "p1").receipt_uuid = "p1"
    ∧ (officialCreateResult (JValue.obj []) "p1").receipt_uuid = "p1"
    ∧ (unofficialCreateResult (JValue.obj []) "p1").receipt_url =
        unofficial_base_url ++ "/web/receipts/"
          ++ (unofficialCreateResult (JValue.obj []) "p1").receipt_uuid
    ∧ (officialCreateResult (JValue.obj []) "p1").receipt_url = "" := by
  obtain ⟨h1, h2, h3, h4, h5, h6⟩ :=
    C10_create_receipt_uuid_url_fallbacks (JValue.obj []) "p1" (by decide)
  exact ⟨h1, h2, h3 rfl rfl rfl, h4 rfl, h5 rfl, h6 rfl⟩


end YooKassa
